import Mathlib

/-!
Shallow embedding of the WhatsApp appointment-assistant conversation core.

The repository contains two orchestration strategies for the same service
class (`WhatsappService`):

* an explicit finite-state-machine orchestrator
  (`src/src/whatsapp/whatsapp.service.ts`), embedded below in namespace
  `FSM`, together with its durable per-user state store
  (`src/src/whatsapp/conversation.service.ts`), embedded in namespace `Conv`;
* a single-shot "classify the whole message" orchestrator
  (`src/unnamed/part_002`), embedded in namespace `Shot`, which keeps an
  in-memory history per user and guards outbound sends against duplicates.

External collaborators (the OpenAI oracle, the Supabase task store, the
WhatsApp sender) are modelled as inputs: oracle classifications and
extraction results are data supplied to a turn, task-store calls yield a
supplied success-or-error result, and every outbound request is recorded
as an `Event`.  Timestamps are epoch milliseconds (`Int`); the host
runtime timezone is taken to be the fixed reference timezone, so
`getTimezoneOffset()` is 0 and calendar fields are derived from epoch
milliseconds by the proleptic Gregorian calendar.
-/

namespace Assistant

/-! ### JavaScript string and number primitives -/

/-- JS `String.prototype.toLowerCase` at the character level: ASCII
uppercase plus the Portuguese accented uppercase letters appearing in the
sources are mapped to lowercase. -/
def jsCharLower (c : Char) : Char :=
  if 'A' ≤ c ∧ c ≤ 'Z' then Char.ofNat (c.toNat + 32)
  else if c = 'Á' then 'á' else if c = 'À' then 'à' else if c = 'Â' then 'â'
  else if c = 'Ã' then 'ã' else if c = 'Ç' then 'ç' else if c = 'É' then 'é'
  else if c = 'Ê' then 'ê' else if c = 'Í' then 'í' else if c = 'Ó' then 'ó'
  else if c = 'Ô' then 'ô' else if c = 'Õ' then 'õ' else if c = 'Ú' then 'ú'
  else c

/-- JS `toLowerCase` on strings. -/
def jsToLower (s : String) : String :=
  String.mk (s.toList.map jsCharLower)

/-- Whitespace as matched by JS `trim` and `\s` (the subset relevant to
the sources). -/
def isJsSpace (c : Char) : Bool :=
  c = ' ' || c = '\t' || c = '\n' || c = '\r'

/-- JS `String.prototype.trim`. -/
def jsTrim (s : String) : String :=
  String.mk (((s.toList.dropWhile isJsSpace).reverse.dropWhile isJsSpace).reverse)

/-- Substring containment on character lists (JS `String.prototype.includes`). -/
def containsSub : List Char → List Char → Bool
  | _, [] => true
  | [], _ :: _ => false
  | c :: rest, d :: ds =>
    List.isPrefixOf (d :: ds) (c :: rest) || containsSub rest (d :: ds)

/-- JS `String.prototype.includes`. -/
def jsIncludes (s pattern : String) : Bool :=
  containsSub s.toList pattern.toList

/-- Numeric value of a decimal digit character. -/
def digitVal (c : Char) : Int :=
  (c.toNat : Int) - ('0'.toNat : Int)

/-- JS `parseInt` on an already-trimmed string: optional sign, then at
least one leading decimal digit; trailing junk is ignored; `none` models
`NaN`. -/
def jsParseInt (s : String) : Option Int :=
  let cs := s.toList.dropWhile isJsSpace
  let (sign, cs) := match cs with
    | '-' :: rest => ((-1 : Int), rest)
    | '+' :: rest => ((1 : Int), rest)
    | rest => ((1 : Int), rest)
  let digits := cs.takeWhile Char.isDigit
  if digits = [] then none
  else some (sign * digits.foldl (fun acc c => acc * 10 + digitVal c) 0)

/-- JS `\w` word character: ASCII letter, digit or underscore. -/
def isWordChar (c : Char) : Bool :=
  ('a' ≤ c && c ≤ 'z') || ('A' ≤ c && c ≤ 'Z') || c.isDigit || c = '_'

/-- One attempt of the regex `(\d{1,2})[:\.](\d{2})` at the head of the
list: the greedy two-digit hour is tried first, then one digit. -/
def timeMatchAt (cs : List Char) : Option (Int × Int) :=
  match cs with
  | a :: b :: c :: d :: e :: _ =>
    if a.isDigit && b.isDigit && (c = ':' || c = '.') && d.isDigit && e.isDigit then
      some (digitVal a * 10 + digitVal b, digitVal d * 10 + digitVal e)
    else if a.isDigit && (b = ':' || b = '.') && c.isDigit && d.isDigit then
      some (digitVal a, digitVal c * 10 + digitVal d)
    else none
  | [a, b, c, d] =>
    if a.isDigit && (b = ':' || b = '.') && c.isDigit && d.isDigit then
      some (digitVal a, digitVal c * 10 + digitVal d)
    else none
  | _ => none

/-- Leftmost match of `(\d{1,2})[:\.](\d{2})` over a character list. -/
def timeMatchScan : List Char → Option (Int × Int)
  | [] => none
  | c :: rest =>
    match timeMatchAt (c :: rest) with
    | some r => some r
    | none => timeMatchScan rest

/-- `message.match(/(\d{1,2})[:\.](\d{2})/)`: extracted hour and minute
of the first time-of-day pattern in the message, if any. -/
def jsMatchTime (s : String) : Option (Int × Int) :=
  timeMatchScan s.toList

/-- One attempt of the regex `restaurante\s+(\w+)/i` at the head of the
list. -/
def restaurantMatchAt (cs : List Char) : Option String :=
  if (cs.take 11).map jsCharLower = "restaurante".toList then
    let rest := cs.drop 11
    let spaces := rest.takeWhile isJsSpace
    let afterSpaces := rest.dropWhile isJsSpace
    let word := afterSpaces.takeWhile isWordChar
    if spaces.length > 0 && word.length > 0 then some (String.mk word) else none
  else none

/-- Leftmost match scan for `restaurante\s+(\w+)/i`. -/
def restaurantMatchScan : List Char → Option String
  | [] => none
  | c :: rest =>
    match restaurantMatchAt (c :: rest) with
    | some r => some r
    | none => restaurantMatchScan rest

/-- `message.match(/restaurante\s+(\w+)/i)`: the captured word after the
keyword, if any. -/
def jsMatchRestaurant (s : String) : Option String :=
  restaurantMatchScan s.toList

/-- One attempt of a command-id alternative `kw\s+(\S+)` (`/i`) at the
head of the list: the keyword (given lowercase), at least one whitespace,
then a non-empty run of non-whitespace captured as the id. -/
def commandIdMatchAt (kw : List Char) (cs : List Char) : Option String :=
  if (cs.take kw.length).map jsCharLower = kw then
    let rest := cs.drop kw.length
    let spaces := rest.takeWhile isJsSpace
    let afterSpaces := rest.dropWhile isJsSpace
    let token := afterSpaces.takeWhile (fun c => !isJsSpace c)
    if spaces.length > 0 && token.length > 0 then some (String.mk token) else none
  else none

/-- Leftmost-position match of an alternation of `kw\s+(\S+)` patterns
(`/i`), alternatives tried in order at each position, as JS regex
alternation does. -/
def commandIdScan (kws : List (List Char)) : List Char → Option String
  | [] => none
  | c :: rest =>
    match kws.findSome? (fun kw => commandIdMatchAt kw (c :: rest)) with
    | some r => some r
    | none => commandIdScan kws rest

/-- `messageText.match(/kw1\s+(\S+)|kw2\s+(\S+)|kw3\s+(\S+)/i)` with the
matched id capture. -/
def jsMatchCommandId (kws : List String) (s : String) : Option String :=
  commandIdScan (kws.map String.toList) s.toList

/-- Stable insertion used by `sortBy`. -/
def insertBy {α : Type} (le : α → α → Bool) (a : α) : List α → List α
  | [] => [a]
  | b :: l => if le a b then a :: b :: l else b :: insertBy le a l

/-- Stable sort modelling JS `Array.prototype.sort` with a numeric
comparator. -/
def sortBy {α : Type} (le : α → α → Bool) : List α → List α
  | [] => []
  | a :: l => insertBy le a (sortBy le l)

/-! ### JavaScript `Date` observations

A `Date` value is its epoch-millisecond timestamp.  Calendar fields are
derived with the standard civil-from-days conversion; the runtime
timezone is the fixed reference timezone (offset 0). -/

/-- `new Date().getTimezoneOffset()` in minutes: the host runs in the
fixed reference timezone. -/
def jsTimezoneOffsetMin : Int := 0

/-- Civil date (year, month 1..12, day 1..31) from days since the epoch. -/
def civilFromDays (z0 : Int) : Int × Int × Int :=
  let z := z0 + 719468
  let era := z.fdiv 146097
  let doe := z - era * 146097
  let yoe := (doe - doe.fdiv 1460 + doe.fdiv 36524 - doe.fdiv 146096).fdiv 365
  let doy := doe - (365 * yoe + yoe.fdiv 4 - yoe.fdiv 100)
  let mp := (5 * doy + 2).fdiv 153
  let d := doy - (153 * mp + 2).fdiv 5 + 1
  let m := mp + (if mp < 10 then 3 else -9)
  let y := yoe + era * 400 + (if m ≤ 2 then 1 else 0)
  (y, m, d)

/-- JS `Date.prototype.getFullYear`. -/
def jsGetFullYear (t : Int) : Int := (civilFromDays (t.fdiv 86400000)).1

/-- JS `Date.prototype.getMonth` (0-based). -/
def jsGetMonth (t : Int) : Int := (civilFromDays (t.fdiv 86400000)).2.1 - 1

/-- JS `Date.prototype.getDate` (day of month). -/
def jsGetDate (t : Int) : Int := (civilFromDays (t.fdiv 86400000)).2.2

/-- JS `Date.prototype.getDay` (0 = Sunday; the epoch day was a Thursday). -/
def jsGetDay (t : Int) : Int := ((t.fdiv 86400000) + 4).emod 7

/-- JS `Date.prototype.getHours`. -/
def jsGetHours (t : Int) : Int := (t.fdiv 3600000).emod 24

/-- JS `Date.prototype.getMinutes`. -/
def jsGetMinutes (t : Int) : Int := (t.fdiv 60000).emod 60

/-- JS `date.setHours(h, m, 0, 0)`: same calendar day, given wall time. -/
def jsSetHoursOfDay (t hours minutes : Int) : Int :=
  (t.fdiv 86400000) * 86400000 + hours * 3600000 + minutes * 60000

/-- JS `date.setHours(0, 0, 0, 0)`: midnight of the calendar day of `t`. -/
def jsStartOfDay (t : Int) : Int := (t.fdiv 86400000) * 86400000

/-- Two-digit zero padding used by `pt-BR` 2-digit formats. -/
def pad2 (n : Int) : String :=
  if n < 10 then "0" ++ toString n else toString n

/-- `pt-BR` long weekday names, indexed by `getDay`. -/
def weekdayLongBR (d : Int) : String :=
  [ "domingo", "segunda-feira", "terça-feira", "quarta-feira",
    "quinta-feira", "sexta-feira", "sábado" ].getD d.toNat "domingo"

/-- `pt-BR` long month names, indexed by `getMonth` (0-based). -/
def monthLongBR (m : Int) : String :=
  [ "janeiro", "fevereiro", "março", "abril", "maio", "junho", "julho",
    "agosto", "setembro", "outubro", "novembro", "dezembro" ].getD m.toNat "janeiro"

/-- `toLocaleTimeString('pt-BR', \x7bhour: '2-digit', minute: '2-digit'\x7d)`. -/
def formatTimeBR (t : Int) : String :=
  pad2 (jsGetHours t) ++ ":" ++ pad2 (jsGetMinutes t)

/-- `toLocaleDateString('pt-BR')`: `DD/MM/YYYY`. -/
def formatShortDateBR (t : Int) : String :=
  pad2 (jsGetDate t) ++ "/" ++ pad2 (jsGetMonth t + 1) ++ "/" ++ toString (jsGetFullYear t)

/-- `toLocaleString('pt-BR', \x7bdateStyle: 'short', timeStyle: 'short'\x7d)`. -/
def formatShortDateTimeBR (t : Int) : String :=
  formatShortDateBR t ++ ", " ++ formatTimeBR t

/-- `toLocaleDateString('pt-BR', \x7bweekday, day, month\x7d)` (long date without time). -/
def formatDateNoTimeBR (t : Int) : String :=
  weekdayLongBR (jsGetDay t) ++ ", " ++ toString (jsGetDate t) ++ " de " ++
    monthLongBR (jsGetMonth t)

/-- `toLocaleDateString('pt-BR', \x7bweekday, day, month, hour, minute\x7d)`
(long date with wall time). -/
def formatDateLongBR (t : Int) : String :=
  formatDateNoTimeBR t ++ " às " ++ formatTimeBR t

/-! ### Shared data model -/

/-- An optional JS string is truthy iff it is present and non-empty. -/
def truthyS (o : Option String) : Bool :=
  match o with
  | some s => !(s == "")
  | none => false

/-- Truthy-or on optional strings: JS `a || b`. -/
def jsOrS (o : Option String) (dflt : String) : String :=
  if truthyS o then o.getD "" else dflt

/-- `ConversationState` enum
(`src/src/whatsapp/entities/conversation-state.entity.ts`). -/
inductive ConversationState where
  | initial
  | collecting_info
  | confirming
  | confirmed
  | cancelled
  | listing_tasks
  | updating_task
  | deleting_task
  | selecting_task
deriving DecidableEq, Repr

/-- `TaskData` (slot model of the appointment under construction). -/
structure TaskData where
  action : Option String := none
  dateTime : Option Int := none
  location : Option String := none
  participants : Option (List String) := none
  fullText : List String := []
  taskId : Option String := none
deriving DecidableEq, Repr

/-- `TaskInformation` returned by the oracle extraction
(`src/src/openai/openai.service.ts`); only extracted fields are present. -/
structure TaskInformation where
  action : Option String := none
  dateTime : Option Int := none
  location : Option String := none
  participants : Option (List String) := none
deriving DecidableEq, Repr

/-- `CrudIntent` returned by the oracle `detectCrudIntent`; `operation`
stays a string because the code switches on string values with a default
branch. -/
structure CrudIntent where
  operation : String
  confidence : Rat
  taskId : Option String := none
  updateInfo : Option TaskInformation := none
deriving DecidableEq, Repr

/-- A persisted task row (`src/unnamed/part_010`, `tasks` table). -/
structure Task where
  id : String
  userId : String
  title : String
  scheduledDate : Int
  location : Option String := none
  participants : Option (List String) := none
  status : String := "pending"
deriving DecidableEq, Repr

instance : Inhabited Task :=
  ⟨{ id := "", userId := "", title := "", scheduledDate := 0 }⟩

/-- `ConversationContext` (one per user phone identity). -/
structure ConversationContext where
  state : ConversationState
  taskData : TaskData
  lastUpdateTime : Int
  selectedTaskId : Option String := none
  operation : Option String := none
  tasks : List Task := []
deriving DecidableEq, Repr

/-- Result of one call to an external collaborator: the call either
returns a value or raises. -/
inductive CallResult (α : Type) where
  | ok (value : α)
  | err
deriving DecidableEq, Repr

/-- Observable effects of one turn: outbound sends (plain or interactive
buttoned), oracle invocations, task-store requests, and writes to the
durable conversation-state store. -/
inductive Event where
  | sent (text : String)
  | sentInteractive (text : String)
  | oracleIntent
  | oracleExtract
  | oracleAnalyze
  | storeCreate (title : Option String) (scheduledDate : Option Int)
  | storeUpdate (taskId : Option String)
  | storeDelete (taskId : Option String)
  | storeFindOne (taskId : Option String)
  | storeFindAll
  | ctxSave (context : ConversationContext)
  | ctxClear
deriving DecidableEq, Repr

/-- Is the event a task-store write request (create, update or delete)? -/
def isTaskWrite : Event → Bool
  | .storeCreate _ _ => true
  | .storeUpdate _ => true
  | .storeDelete _ => true
  | _ => false

/-- Is the event an oracle invocation? -/
def isOracleCall : Event → Bool
  | .oracleIntent => true
  | .oracleExtract => true
  | .oracleAnalyze => true
  | _ => false

/-- The texts of the outbound requests among the events, in order. -/
def sentTexts (events : List Event) : List String :=
  events.foldr
    (fun e acc =>
      match e with
      | .sent t => t :: acc
      | .sentInteractive t => t :: acc
      | _ => acc)
    []

/-- The cancel keyword check of both orchestrators, applied to the
trimmed lowercased message. -/
def isCancelKeyword (l : String) : Bool :=
  l == "cancelar" || l == "cancel" || l == "/cancelar"

/-- The restart keyword check. -/
def isRestartKeyword (l : String) : Bool :=
  l == "reiniciar" || l == "restart" || l == "/reiniciar"

/-- The help keyword check. -/
def isHelpKeyword (l : String) : Bool :=
  l == "ajuda" || l == "help" || l == "/ajuda"

/-- The list keyword check, present only in the single-shot
orchestrator. -/
def isListKeyword (l : String) : Bool :=
  l == "listar" || l == "compromissos" || l == "/listar"

/-- Does the message short-circuit as a control keyword of the
finite-state-machine orchestrator? -/
def isControlKeyword (msg : String) : Bool :=
  let l := jsTrim (jsToLower msg)
  isCancelKeyword l || isRestartKeyword l || isHelpKeyword l

namespace Conv

/-- A Supabase/PostgREST error as observed by the service: only the
`code` is inspected. -/
structure SupabaseError where
  code : String
  message : String := ""
deriving DecidableEq, Repr

/-- A `conversation_states` row as selected by `getConversationState`. -/
structure ConversationRow where
  state : ConversationState
  task_data : TaskData
  last_update_time : Int
deriving DecidableEq, Repr

/-- Body of the `try` block of `getConversationState`
(`conversation.service.ts` lines 13-33): the absent-row error code
`PGRST116` yields `null`; any other error is rethrown. -/
def getConversationStateInner (queryResult : Except SupabaseError ConversationRow) :
    Except SupabaseError (Option ConversationContext) :=
  match queryResult with
  | .error e =>
    if e.code = "PGRST116" then .ok none
    else .error e
  | .ok data =>
    .ok (some { state := data.state, taskData := data.task_data,
                lastUpdateTime := data.last_update_time })

/-- `getConversationState` (lines 12-38): the outer `catch` turns any
remaining error into `null`. -/
def getConversationState (queryResult : Except SupabaseError ConversationRow) :
    Option ConversationContext :=
  match getConversationStateInner queryResult with
  | .ok v => v
  | .error _ => none

/-- `isConversationStale` (lines 117-122): strictly older than 30
minutes. -/
def isConversationStale (now : Int) (context : ConversationContext) : Bool :=
  context.lastUpdateTime < now - 30 * 60000

/-- `createInitialContext` (lines 125-133). -/
def createInitialContext (now : Int) : ConversationContext :=
  { state := .collecting_info, taskData := { fullText := [] }, lastUpdateTime := now }

/-- `saveConversationState` persists only `state`, `task_data` and a fresh
`last_update_time`; `selectedTaskId`, `operation` and `tasks` are not
stored (lines 54-61). -/
def persistContext (now : Int) (context : ConversationContext) : ConversationContext :=
  { state := context.state, taskData := context.taskData, lastUpdateTime := now }

end Conv

/-- Durable store contents after a turn: replaying the turn's save/clear
requests over the pre-turn entry, where a save stores only the persisted
columns stamped with the turn's clock. -/
def finalStore (now : Int) (events : List Event)
    (stored : Option ConversationContext) : Option ConversationContext :=
  events.foldl
    (fun acc e =>
      match e with
      | .ctxSave c => some (Conv.persistContext now c)
      | .ctxClear => none
      | _ => acc)
    stored

namespace FSM

/-!
Embedding of the finite-state-machine orchestrator
`src/src/whatsapp/whatsapp.service.ts`.  A turn's external inputs are
collected in `TurnInput`: the oracle classification, up to two extraction
results (at most two `extractTaskInformation` calls happen per turn,
consumed in call order), and the outcome of each kind of task-store call
(at most one call of each kind happens per turn).  Outbound sends are
modelled as always reaching the transport.
-/

/-- External inputs of one orchestrator turn. -/
structure TurnInput where
  userId : String
  msg : String
  now : Int
  crud : CrudIntent
  ex1 : Option TaskInformation := none
  ex2 : Option TaskInformation := none
  createRes : CallResult Unit := .ok ()
  updateRes : CallResult Task := .err
  removeRes : CallResult Unit := .ok ()
  findOneRes : CallResult Task := .err
  findAllRes : CallResult (List Task) := .ok []

/-- The four conditional field assignments applying freshly extracted
information onto the slot model, shared verbatim by `handleCollectingInfo`
(lines 1281-1284), `handleTaskUpdate` (lines 669-672) and
`handleConfirmation` (lines 1388-1391): a truthy extracted field
overrides, every other field keeps its previous value. -/
def mergeExtractedInfo (taskData : TaskData) (info : TaskInformation) : TaskData :=
  { taskData with
    action := if truthyS info.action then info.action else taskData.action
    dateTime := if info.dateTime.isSome then info.dateTime else taskData.dateTime
    location := if truthyS info.location then info.location else taskData.location
    participants := if info.participants.isSome then info.participants
                    else taskData.participants }

/-- `checkForInfoChanges` (lines 1435-1458). -/
def checkForInfoChanges (previous : Option TaskData) (current : TaskData) : Bool :=
  match previous with
  | none => false
  | some previous =>
    let actionChanged := previous.action != current.action
    let dateTimeChanged :=
      match previous.dateTime, current.dateTime with
      | some p, some c => p != c
      | p, c => p.isSome != c.isSome
    let locationChanged := previous.location != current.location
    let participantsChanged := previous.participants != current.participants
    actionChanged || dateTimeChanged || locationChanged || participantsChanged

/-- `getChangeHighlights` (lines 1460-1519). -/
def getChangeHighlights (previous : Option TaskData) (current : TaskData) : Option String :=
  match previous with
  | none => none
  | some previous =>
    let changes : List String :=
      (if previous.action != current.action then
        ["- Compromisso: \"" ++ jsOrS previous.action "Não definido" ++ "\" → \"" ++
          current.action.getD "undefined" ++ "\""]
       else []) ++
      (if previous.dateTime.isSome || current.dateTime.isSome then
        let prevDateFormatted := match previous.dateTime with
          | some t => formatShortDateTimeBR t
          | none => "Não definida"
        let currDateFormatted := match current.dateTime with
          | some t => formatShortDateTimeBR t
          | none => "Não definida"
        if prevDateFormatted != currDateFormatted then
          ["- Data/Hora: " ++ prevDateFormatted ++ " → " ++ currDateFormatted]
        else []
       else []) ++
      (if previous.location != current.location then
        ["- Local: \"" ++ jsOrS previous.location "Não definido" ++ "\" → \"" ++
          jsOrS current.location "Não definido" ++ "\""]
       else []) ++
      (if previous.participants != current.participants then
        let prevPart := match previous.participants with
          | some ps => if ps.length > 0 then String.intercalate ", " ps else "Ninguém"
          | none => "Ninguém"
        let currPart := match current.participants with
          | some ps => if ps.length > 0 then String.intercalate ", " ps else "Ninguém"
          | none => "Ninguém"
        ["- Participantes: " ++ prevPart ++ " → " ++ currPart]
       else [])
    if changes.length > 0 then some (String.intercalate "\n" changes) else none

/-- `createConfirmationMessage` (lines 1615-1636). -/
def createConfirmationMessage (taskInfo : TaskData) : String :=
  let formattedDate := match taskInfo.dateTime with
    | some t => formatDateLongBR t
    | none => "Invalid Date"
  let message := "📝 *" ++ taskInfo.action.getD "undefined" ++ "*\n📅 " ++ formattedDate
  let message := message ++
    (if truthyS taskInfo.location then "\n📍 Local: " ++ taskInfo.location.getD "" else "")
  message ++
    (match taskInfo.participants with
     | some ps => if ps.length > 0 then "\n👥 Participantes: " ++ String.intercalate ", " ps
                  else ""
     | none => "")

/-- `sendInteractiveConfirmation` (lines 1521-1579): the body text wraps
the message with a standing question. -/
def sendInteractiveConfirmation (message : String) : Event :=
  .sentInteractive (message ++ "\n\nEstas informações estão corretas?")

/-- `sendInteractiveDeleteConfirmation` (lines 523-582). -/
def sendInteractiveDeleteConfirmation (message : String) : Event :=
  .sentInteractive (message ++ "\n\nTem certeza que deseja excluir este compromisso?")

/-- Direct keyword/pattern extraction attempted when the oracle returned
`null` (`handleCollectingInfo` lines 1288-1308). -/
def fallbackExtraction (now : Int) (messageText : String) (taskData : TaskData) : TaskData :=
  let taskData :=
    if jsIncludes (jsToLower messageText) "almoço" && !truthyS taskData.action then
      { taskData with action := some "Almoço" }
    else taskData
  let taskData :=
    match jsMatchTime messageText with
    | some (hours, minutes) =>
      if !taskData.dateTime.isSome then
        { taskData with dateTime := some (jsSetHoursOfDay now hours minutes) }
      else taskData
    | none => taskData
  if jsIncludes (jsToLower messageText) "restaurante" && !truthyS taskData.location then
    match jsMatchRestaurant messageText with
    | some word => { taskData with location := some ("Restaurante " ++ word) }
    | none => taskData
  else taskData

/-- `handleCollectingInfo` (lines 1262-1359).  `exRes` is the result of
this call's `extractTaskInformation` invocation; every call site passes
`previousTaskInfo = null`. -/
def handleCollectingInfo (input : TurnInput) (exRes : Option TaskInformation)
    (context : ConversationContext) (previousTaskInfo : Option TaskData) :
    ConversationContext × List Event :=
  let taskData :=
    { context.taskData with fullText := context.taskData.fullText ++ [input.msg] }
  let taskData :=
    match exRes with
    | some updatedTaskInfo => mergeExtractedInfo taskData updatedTaskInfo
    | none => fallbackExtraction input.now input.msg taskData
  if truthyS taskData.action && taskData.dateTime.isSome then
    let hasChanges := checkForInfoChanges previousTaskInfo taskData
    if hasChanges && previousTaskInfo.isSome then
      let changeMessage := match getChangeHighlights previousTaskInfo taskData with
        | some h => "\n\n*Alterações detectadas:*\n" ++ h
        | none => ""
      ({ context with taskData := taskData, state := .confirming },
        [.oracleExtract,
         sendInteractiveConfirmation (createConfirmationMessage taskData ++ changeMessage)])
    else
      ({ context with taskData := taskData, state := .confirming },
        [.oracleExtract,
         sendInteractiveConfirmation (createConfirmationMessage taskData)])
  else
    let responseMessage := "Estou coletando informações para seu compromisso. " ++
      (if truthyS taskData.action then "" else "Qual é o compromisso? ") ++
      (if taskData.dateTime.isSome then "" else "Qual a data e hora? ")
    ({ context with taskData := taskData }, [.oracleExtract, .sent responseMessage])

/-- Apologetic message of `createTask`'s own `catch` (line 1610). -/
def createTaskErrorMessage : String :=
  "Desculpe, ocorreu um erro ao criar seu compromisso. Tente novamente mais tarde."

/-- `createTask` (lines 1581-1613): requests the task-store create; its
own `catch` answers `createTaskErrorMessage` on failure and does not
rethrow. -/
def createTask (input : TurnInput) (taskData : TaskData) : List Event :=
  let createEvent := Event.storeCreate taskData.action taskData.dateTime
  match input.createRes with
  | .ok _ =>
    [createEvent,
     .sent ("✅ Compromisso agendado com sucesso!\n\n" ++ createConfirmationMessage taskData)]
  | .err => [createEvent, .sent createTaskErrorMessage]

/-- The affirmative check of `handleConfirmation` (line 1371), on the
lowercased (untrimmed) message. -/
def isAffirmative (msg : String) : Bool :=
  let response := jsToLower msg
  jsIncludes response "sim" || response == "s" || response == "yes" ||
    response == "confirmar"

/-- `handleConfirmation` (lines 1362-1396).  The affirmative branch
creates the task and then clears the stored conversation state; the
negative branch re-enters collection; anything else is re-merged as slot
data and re-evaluated through `handleCollectingInfo`. -/
def handleConfirmation (input : TurnInput) (context : ConversationContext) :
    ConversationContext × List Event :=
  let response := jsToLower input.msg
  if isAffirmative input.msg then
    (context, createTask input context.taskData ++ [.ctxClear])
  else if jsIncludes response "não" || jsIncludes response "nao" || response == "n" ||
      response == "no" || response == "editar" then
    ({ context with state := .collecting_info },
      [.sent "Entendi que você quer fazer alterações. Por favor, me diga o que precisa corrigir no agendamento."])
  else
    let context := { context with state := .collecting_info }
    let context :=
      match input.ex1 with
      | some newInfo => { context with taskData := mergeExtractedInfo context.taskData newInfo }
      | none => context
    let result := handleCollectingInfo input input.ex2 context none
    (result.1, [.oracleExtract] ++ result.2)

/-- `updateTask` (lines 710-761): requests the task-store update and, on
success, sends a confirmation and clears the stored conversation state. -/
def updateTask (input : TurnInput) (taskId : Option String) (taskData : TaskData) :
    List Event :=
  let updateEvent := Event.storeUpdate taskId
  match input.updateRes with
  | .ok updatedTask =>
    let message := "✅ *Compromisso atualizado com sucesso!*\n\n📝 *" ++ updatedTask.title ++
      "*\n📅 " ++ formatDateLongBR updatedTask.scheduledDate
    let message := message ++
      (if truthyS updatedTask.location then "\n📍 Local: " ++ updatedTask.location.getD ""
       else "")
    let message := message ++
      (match updatedTask.participants with
       | some ps => if ps.length > 0 then "\n👥 Participantes: " ++ String.intercalate ", " ps
                    else ""
       | none => "")
    [updateEvent, .sent message, .ctxClear]
  | .err =>
    [updateEvent, .sent "Ocorreu um erro ao atualizar o compromisso. Tente novamente mais tarde."]

/-- `handleTaskUpdate` (lines 640-708): a confirm keyword applies the
accumulated slot model through the task store; otherwise the turn is
appended, re-extracted and merged, and the diff is shown. -/
def handleTaskUpdate (input : TurnInput) (context : ConversationContext) :
    ConversationContext × List Event :=
  let lowerCaseMessage := jsTrim (jsToLower input.msg)
  if lowerCaseMessage == "confirmar" || lowerCaseMessage == "salvar" ||
      lowerCaseMessage == "ok" then
    (context, updateTask input context.selectedTaskId context.taskData)
  else
    let taskData :=
      { context.taskData with fullText := context.taskData.fullText ++ [input.msg] }
    let previousTaskInfo := taskData
    let taskData :=
      match input.ex1 with
      | some updatedTaskInfo => mergeExtractedInfo taskData updatedTaskInfo
      | none => taskData
    let context := { context with taskData := taskData }
    if checkForInfoChanges (some previousTaskInfo) taskData then
      let changeMessage := match getChangeHighlights (some previousTaskInfo) taskData with
        | some h => "\n\n*Alterações detectadas:*\n" ++ h
        | none => ""
      let message := "*Informações atualizadas:*\n\n" ++ createConfirmationMessage taskData ++
        changeMessage ++ "\n\nContinue digitando alterações ou digite \"confirmar\" para salvar."
      (context, [.oracleExtract, .sent message])
    else
      (context,
        [.oracleExtract,
         .sent "Não detectei alterações claras. Tente ser mais específico (ex: \"hora para 16h\" ou \"local: Shopping\"). Digite \"confirmar\" quando terminar."])

/-- `deleteTask` (lines 763-793): reads the task for the confirmation
text, requests removal, and clears the stored conversation state; any
failure is answered by its own `catch`. -/
def deleteTask (input : TurnInput) (taskId : Option String) : List Event :=
  match input.findOneRes with
  | .err =>
    [.storeFindOne taskId,
     .sent "Ocorreu um erro ao excluir o compromisso. Tente novamente mais tarde."]
  | .ok task =>
    match input.removeRes with
    | .ok _ =>
      [.storeFindOne taskId, .storeDelete taskId,
       .sent ("✅ Compromisso \"*" ++ task.title ++ "*\" foi excluído com sucesso!"),
       .ctxClear]
    | .err =>
      [.storeFindOne taskId, .storeDelete taskId,
       .sent "Ocorreu um erro ao excluir o compromisso. Tente novamente mais tarde."]

/-- `handleTaskDeletion` (lines 397-430). -/
def handleTaskDeletion (input : TurnInput) (context : ConversationContext) :
    ConversationContext × List Event :=
  let lowerCaseMessage := jsTrim (jsToLower input.msg)
  if lowerCaseMessage == "sim" || lowerCaseMessage == "confirmar" ||
      lowerCaseMessage == "delete_confirm" || lowerCaseMessage == "sim, excluir" then
    (context, deleteTask input context.selectedTaskId)
  else
    (context,
      [.sent "Exclusão cancelada. O compromisso não foi removido.", .ctxClear])

/-- `startTaskUpdate` (lines 584-639): announces the task being edited
and stores a fresh `UPDATING_TASK` context initialised from it. -/
def startTaskUpdate (input : TurnInput) (task : Task) : List Event :=
  let message := "*Atualizando compromisso:*\n\n📝 *" ++ task.title ++ "*\n📅 " ++
    formatDateLongBR task.scheduledDate
  let message := message ++
    (if truthyS task.location then "\n📍 Local: " ++ task.location.getD "" else "")
  let message := message ++
    (match task.participants with
     | some ps => if ps.length > 0 then "\n👥 Participantes: " ++ String.intercalate ", " ps
                  else ""
     | none => "")
  let message := message ++
    "\n\nDigite as informações que deseja alterar (ex: \"horário para 16h\" ou \"local: Shopping\").\nQuando terminar, digite \"confirmar\" para salvar as alterações."
  let newContext :=
    { Conv.createInitialContext input.now with
      state := ConversationState.updating_task
      taskData := { action := some task.title, dateTime := some task.scheduledDate,
                    location := task.location, participants := task.participants,
                    fullText := [] }
      selectedTaskId := some task.id }
  [.sent message, .ctxSave newContext]

/-- `startTaskDeletion` (lines 473-521). -/
def startTaskDeletion (input : TurnInput) (task : Task) : List Event :=
  let message := "*Você está prestes a excluir:*\n\n📝 *" ++ task.title ++ "*\n📅 " ++
    formatDateLongBR task.scheduledDate
  let message := message ++
    (if truthyS task.location then "\n📍 Local: " ++ task.location.getD "" else "")
  let newContext :=
    { Conv.createInitialContext input.now with
      state := ConversationState.deleting_task
      selectedTaskId := some task.id }
  [sendInteractiveDeleteConfirmation message, .ctxSave newContext]

/-- `handleTaskSelection` (lines 432-471). -/
def handleTaskSelection (input : TurnInput) (context : ConversationContext) :
    ConversationContext × List Event :=
  let rangeMessage :=
    "Por favor, responda com um número entre 1 e " ++ toString context.tasks.length ++ "."
  match jsParseInt (jsTrim input.msg) with
  | none => (context, [.sent rangeMessage])
  | some selection =>
    if selection < 1 || selection > context.tasks.length then
      (context, [.sent rangeMessage])
    else
      let selectedTask := context.tasks.getD (selection - 1).toNat default
      if context.operation == some "update" then
        (context, startTaskUpdate input selectedTask)
      else if context.operation == some "delete" then
        (context, startTaskDeletion input selectedTask)
      else
        (context, [])

/-- One numbered line of a task list with the long date, optional
location, and the task id (`handleListCommand` lines 325-340). -/
def listLineWithId (numbered : Nat × Task) : String :=
  let (index, task) := numbered
  toString (index + 1) ++ ". *" ++ task.title ++ "* - " ++
    formatDateLongBR task.scheduledDate ++
    (if truthyS task.location then " - " ++ task.location.getD "" else "") ++
    "\n   ID: " ++ task.id ++ "\n\n"

/-- One numbered line of a selection list (`handleUpdateCommand` lines
1007-1022, `handleDeleteCommand` lines 1196-1211). -/
def selectionLine (numbered : Nat × Task) : String :=
  let (index, task) := numbered
  toString (index + 1) ++ ". *" ++ task.title ++ "* - " ++
    formatDateLongBR task.scheduledDate ++
    (if truthyS task.location then " - " ++ task.location.getD "" else "") ++ "\n"

/-- `handleListCommand` (lines 294-395): sends the grouped task list and
stores a context holding the tasks with state `INITIAL`. -/
def handleListCommand (input : TurnInput) : List Event :=
  match input.findAllRes with
  | .err =>
    [.storeFindAll,
     .sent "Ocorreu um erro ao buscar seus compromissos. Tente novamente mais tarde."]
  | .ok tasks =>
    if tasks.length == 0 then
      [.storeFindAll,
       .sent "Você não tem compromissos agendados. Para criar um novo compromisso, basta me dizer os detalhes."]
    else
      let today := jsStartOfDay input.now
      let pastTasks := tasks.filter (fun task => task.scheduledDate < today)
      let upcomingTasks := tasks.filter (fun task => !(task.scheduledDate < today))
      let upcomingTasks := sortBy (fun a b => a.scheduledDate ≤ b.scheduledDate) upcomingTasks
      let message := "*Seus compromissos*\n\n"
      let message := message ++
        (if upcomingTasks.length > 0 then
          "*Próximos compromissos:*\n" ++
            String.join (upcomingTasks.enum.map listLineWithId)
         else "")
      let message := message ++
        (if pastTasks.length > 0 then
          let recentPastTasks :=
            (sortBy (fun a b => b.scheduledDate ≤ a.scheduledDate) pastTasks).take 5
          "*Compromissos passados:*\n" ++
            String.join (recentPastTasks.enum.map listLineWithId) ++
            (if pastTasks.length > 5 then
              "...e mais " ++ toString (pastTasks.length - 5) ++ " compromissos passados.\n\n"
             else "")
         else "")
      let message := message ++ "Para gerenciar seus compromissos, use:\n" ++
        "• \"atualizar [ID]\" - Editar um compromisso\n" ++
        "• \"excluir [ID]\" - Remover um compromisso\n"
      let newContext :=
        { Conv.createInitialContext input.now with
          state := ConversationState.initial, tasks := tasks }
      [.storeFindAll, .sent message, .ctxSave newContext]

/-- Spread merge `\x7b...updateInfo, ...extractedInfo\x7d`: a present
field of the extraction overrides. -/
def spreadMerge (base extra : TaskInformation) : TaskInformation :=
  { action := if extra.action.isSome then extra.action else base.action
    dateTime := if extra.dateTime.isSome then extra.dateTime else base.dateTime
    location := if extra.location.isSome then extra.location else base.location
    participants := if extra.participants.isSome then extra.participants
                    else base.participants }

/-- `Object.keys(updateInfo).length > 0` for the merged update info. -/
def hasAnyField (info : TaskInformation) : Bool :=
  info.action.isSome || info.dateTime.isSome || info.location.isSome ||
    info.participants.isSome

/-- `handleUpdateCommand` (lines 961-1071), always invoked with the
literal text `'atualizar'` (line 949). -/
def handleUpdateCommand (input : TurnInput) (messageText : String) : List Event :=
  match jsMatchCommandId ["atualizar", "editar", "/atualizar"] messageText with
  | none =>
    match input.findAllRes with
    | .err =>
      [.storeFindAll,
       .sent "Ocorreu um erro ao processar sua solicitação. Tente novamente mais tarde."]
    | .ok tasks =>
      if tasks.length == 0 then
        [.storeFindAll,
         .sent "Você não tem compromissos para atualizar. Para criar um novo compromisso, basta me dizer os detalhes."]
      else
        let today := jsStartOfDay input.now
        let upcomingTasks :=
          sortBy (fun a b => a.scheduledDate ≤ b.scheduledDate)
            (tasks.filter (fun task => !(task.scheduledDate < today)))
        if upcomingTasks.length == 0 then
          [.storeFindAll,
           .sent "Você não tem compromissos futuros para atualizar. Para criar um novo compromisso, basta me dizer os detalhes."]
        else
          let message := "*Selecione o compromisso para atualizar:*\n\n" ++
            String.join (upcomingTasks.enum.map selectionLine) ++
            "\nResponda com o número do compromisso que deseja atualizar."
          let newContext :=
            { Conv.createInitialContext input.now with
              state := ConversationState.selecting_task
              operation := some "update"
              tasks := upcomingTasks }
          [.storeFindAll, .sent message, .ctxSave newContext]
  | some taskId =>
    match input.findOneRes with
    | .err =>
      [.storeFindOne (some taskId),
       .sent "Não foi possível encontrar um compromisso com este ID. Verifique o ID e tente novamente, ou use o comando \"listar\" para ver seus compromissos."]
    | .ok task =>
      if task.userId != input.userId then
        [.storeFindOne (some taskId),
         .sent "Este compromisso não pertence a você ou não existe. Verifique o ID e tente novamente."]
      else
        [.storeFindOne (some taskId)] ++ startTaskUpdate input task

/-- `handleNaturalLanguageUpdate` (lines 809-959). -/
def handleNaturalLanguageUpdate (input : TurnInput) : List Event :=
  match input.findAllRes with
  | .err =>
    [.storeFindAll,
     .sent "Ocorreu um erro ao processar sua atualização. Tente novamente ou use o comando \"atualizar\" para ver a lista de compromissos."]
  | .ok tasks =>
    if tasks.length == 0 then
      [.storeFindAll,
       .sent "Você não tem compromissos para atualizar. Para criar um novo compromisso, basta me dizer os detalhes."]
    else
      let today := jsStartOfDay input.now
      let upcomingTasks :=
        sortBy (fun a b => a.scheduledDate ≤ b.scheduledDate)
          (tasks.filter (fun task => !(task.scheduledDate < today)))
      if upcomingTasks.length == 0 then
        [.storeFindAll,
         .sent "Você não tem compromissos futuros para atualizar. Para criar um novo compromisso, basta me dizer os detalhes."]
      else
        let taskToUpdate := upcomingTasks.getD 0 default
        let taskToUpdate :=
          if jsIncludes (jsToLower input.msg) (jsToLower taskToUpdate.title) then taskToUpdate
          else
            match upcomingTasks.find?
                (fun task => jsIncludes (jsToLower input.msg) (jsToLower task.title)) with
            | some task => task
            | none => taskToUpdate
        let updateInfo := (input.crud.updateInfo.getD {})
        let updateInfo :=
          match input.ex1 with
          | some extractedInfo => spreadMerge updateInfo extractedInfo
          | none => updateInfo
        if hasAnyField updateInfo then
          let newTaskData : TaskData :=
            { action := some (jsOrS updateInfo.action taskToUpdate.title)
              dateTime := some (updateInfo.dateTime.getD taskToUpdate.scheduledDate)
              location := if truthyS updateInfo.location then updateInfo.location
                          else taskToUpdate.location
              participants := if updateInfo.participants.isSome then updateInfo.participants
                              else taskToUpdate.participants
              fullText := [input.msg] }
          let newContext :=
            { Conv.createInitialContext input.now with
              state := ConversationState.updating_task
              taskData := newTaskData
              selectedTaskId := some taskToUpdate.id }
          let previousData : TaskData :=
            { action := some taskToUpdate.title, dateTime := some taskToUpdate.scheduledDate,
              location := taskToUpdate.location, participants := taskToUpdate.participants }
          if checkForInfoChanges (some previousData) newTaskData then
            let message := "*Atualizando compromisso:*\n\n📝 *" ++ taskToUpdate.title ++
              "*\n📅 " ++ formatDateLongBR taskToUpdate.scheduledDate
            let message := message ++
              (if truthyS taskToUpdate.location then
                "\n📍 Local: " ++ taskToUpdate.location.getD "" else "")
            let message := message ++
              (match taskToUpdate.participants with
               | some ps =>
                 if ps.length > 0 then "\n👥 Participantes: " ++ String.intercalate ", " ps
                 else ""
               | none => "")
            let message := message ++
              (match getChangeHighlights (some previousData) newTaskData with
               | some h => "\n\n*Alterações detectadas:*\n" ++ h
               | none => "") ++ "\n\nConfirma estas alterações?"
            [.storeFindAll, .oracleExtract, sendInteractiveConfirmation message,
             .ctxSave newContext]
          else
            [.storeFindAll, .oracleExtract,
             .sent "Não detectei alterações específicas. Por favor, indique claramente o que deseja alterar (ex: \"horário para 16h\" ou \"local: Shopping\")."]
        else
          [.storeFindAll, .oracleExtract] ++ handleUpdateCommand input "atualizar"

/-- `handleDeleteCommand` (lines 1150-1260), always invoked with the
literal text `'excluir'` (line 1138). -/
def handleDeleteCommand (input : TurnInput) (messageText : String) : List Event :=
  match jsMatchCommandId ["excluir", "deletar", "/excluir"] messageText with
  | none =>
    match input.findAllRes with
    | .err =>
      [.storeFindAll,
       .sent "Ocorreu um erro ao processar sua solicitação. Tente novamente mais tarde."]
    | .ok tasks =>
      if tasks.length == 0 then
        [.storeFindAll,
         .sent "Você não tem compromissos para excluir. Para criar um novo compromisso, basta me dizer os detalhes."]
      else
        let today := jsStartOfDay input.now
        let upcomingTasks :=
          sortBy (fun a b => a.scheduledDate ≤ b.scheduledDate)
            (tasks.filter (fun task => !(task.scheduledDate < today)))
        if upcomingTasks.length == 0 then
          [.storeFindAll,
           .sent "Você não tem compromissos futuros para excluir. Para criar um novo compromisso, basta me dizer os detalhes."]
        else
          let message := "*Selecione o compromisso para excluir:*\n\n" ++
            String.join (upcomingTasks.enum.map selectionLine) ++
            "\nResponda com o número do compromisso que deseja excluir."
          let newContext :=
            { Conv.createInitialContext input.now with
              state := ConversationState.selecting_task
              operation := some "delete"
              tasks := upcomingTasks }
          [.storeFindAll, .sent message, .ctxSave newContext]
  | some taskId =>
    match input.findOneRes with
    | .err =>
      [.storeFindOne (some taskId),
       .sent "Não foi possível encontrar um compromisso com este ID. Verifique o ID e tente novamente, ou use o comando \"listar\" para ver seus compromissos."]
    | .ok task =>
      if task.userId != input.userId then
        [.storeFindOne (some taskId),
         .sent "Este compromisso não pertence a você ou não existe. Verifique o ID e tente novamente."]
      else
        [.storeFindOne (some taskId)] ++ startTaskDeletion input task

/-- `handleNaturalLanguageDelete` (lines 1073-1148). -/
def handleNaturalLanguageDelete (input : TurnInput) : List Event :=
  match input.findAllRes with
  | .err =>
    [.storeFindAll,
     .sent "Ocorreu um erro ao processar sua solicitação. Tente novamente ou use o comando \"excluir\" para ver a lista de compromissos."]
  | .ok tasks =>
    if tasks.length == 0 then
      [.storeFindAll,
       .sent "Você não tem compromissos para excluir. Para criar um novo compromisso, basta me dizer os detalhes."]
    else
      let today := jsStartOfDay input.now
      let upcomingTasks :=
        sortBy (fun a b => a.scheduledDate ≤ b.scheduledDate)
          (tasks.filter (fun task => !(task.scheduledDate < today)))
      if upcomingTasks.length == 0 then
        [.storeFindAll,
         .sent "Você não tem compromissos futuros para excluir. Para criar um novo compromisso, basta me dizer os detalhes."]
      else
        let lowerCaseMessage := jsToLower input.msg
        let taskToDelete := upcomingTasks.find? (fun task =>
          jsIncludes lowerCaseMessage (jsToLower task.title) ||
          jsIncludes lowerCaseMessage (formatShortDateBR task.scheduledDate) ||
          jsIncludes lowerCaseMessage (formatTimeBR task.scheduledDate))
        match taskToDelete with
        | some task => [.storeFindAll] ++ startTaskDeletion input task
        | none => [.storeFindAll] ++ handleDeleteCommand input "excluir"

/-- `handleCancelCommand` (lines 1398-1413). -/
def handleCancelCommand : List Event :=
  [.ctxClear,
   .sent "Operação cancelada. Você pode começar novamente quando quiser. Digite qualquer mensagem para iniciar um novo agendamento."]

/-- `handleRestartCommand` (lines 1415-1433): stores a fresh context. -/
def handleRestartCommand (now : Int) : List Event :=
  [.ctxSave (Conv.createInitialContext now),
   .sent "Conversa reiniciada. Vamos começar de novo! Por favor, me diga detalhes do seu compromisso (tipo, data, hora, local)."]

/-- Static help text (`handleHelpCommand`, lines 795-807). -/
def helpMessage : String :=
  "*Ajuda - Comandos Disponíveis*\n\n" ++
  "• Para *criar* um compromisso, basta me dizer os detalhes (ex: \"Reunião amanhã às 15h\")\n\n" ++
  "• *listar* - Mostra todos os seus compromissos\n\n" ++
  "• *atualizar [ID]* - Atualiza um compromisso específico\n\n" ++
  "• *excluir [ID]* - Remove um compromisso específico\n\n" ++
  "• *cancelar* - Cancela a operação atual\n\n" ++
  "• *reiniciar* - Recomeça a conversa\n\n" ++
  "• *ajuda* - Mostra esta mensagem de ajuda\n\n" ++
  "Para gerenciar seus compromissos, você pode usar o comando \"listar\" e depois selecionar qual compromisso deseja modificar ou excluir."

/-- `handleHelpCommand` (lines 795-807): only sends the help text. -/
def handleHelpCommand : List Event :=
  [.sent helpMessage]

/-- The generic apology of `processConversation`'s own `catch`
(lines 283-292). -/
def processConversationErrorMessage : String :=
  "Desculpe, ocorreu um erro ao processar sua mensagem. Tente novamente mais tarde."

/-- Lines 146-149: a missing or stale stored context is replaced by a
fresh one before processing. -/
def effectiveContext (now : Int) (stored : Option ConversationContext) :
    ConversationContext :=
  match stored with
  | some context =>
    if Conv.isConversationStale now context then Conv.createInitialContext now else context
  | none => Conv.createInitialContext now

/-- Intent-driven dispatch of `processConversation` (lines 191-281),
reached from the `INITIAL` state or from a state the `switch` does not
handle.  Begins by invoking the oracle `detectCrudIntent`. -/
def intentDispatch (input : TurnInput) (context : ConversationContext) : List Event :=
  let collectAsCreation : List Event :=
    let context :=
      { context with
        taskData := { context.taskData with
                      fullText := context.taskData.fullText ++ [input.msg] }
        state := ConversationState.collecting_info }
    let result := handleCollectingInfo input input.ex1 context none
    result.2 ++ [.ctxSave result.1]
  [Event.oracleIntent] ++
  (if input.crud.confidence > mkRat 6 10 then
    if input.crud.operation == "create" then collectAsCreation
    else if input.crud.operation == "read" then
      handleListCommand input ++ [.ctxSave (Conv.createInitialContext input.now)]
    else if input.crud.operation == "update" then
      match input.crud.taskId with
      | some taskId =>
        (match input.findOneRes with
         | .ok task =>
           if task.userId == input.userId then
             [.storeFindOne (some taskId)] ++ startTaskUpdate input task
           else
             [.storeFindOne (some taskId),
              .sent "Este compromisso não pertence a você ou não existe.",
              .ctxSave context]
         | .err =>
           [.storeFindOne (some taskId)] ++ handleNaturalLanguageUpdate input ++
             [.ctxSave context])
      | none => handleNaturalLanguageUpdate input ++ [.ctxSave context]
    else if input.crud.operation == "delete" then
      match input.crud.taskId with
      | some taskId =>
        (match input.findOneRes with
         | .ok task =>
           if task.userId == input.userId then
             [.storeFindOne (some taskId)] ++ startTaskDeletion input task
           else
             [.storeFindOne (some taskId),
              .sent "Este compromisso não pertence a você ou não existe.",
              .ctxSave context]
         | .err =>
           [.storeFindOne (some taskId)] ++ handleNaturalLanguageDelete input ++
             [.ctxSave context])
      | none => handleNaturalLanguageDelete input ++ [.ctxSave context]
    else collectAsCreation
  else collectAsCreation)

/-- Lines 153-157: the inbound text is appended to the slot model's
`fullText` before every stateful dispatch. -/
def pushTurn (context : ConversationContext) (msg : String) : ConversationContext :=
  { context with
    taskData := { context.taskData with
                  fullText := context.taskData.fullText ++ [msg] } }

/-- State-first dispatch of one turn of `processConversation`
(lines 150-281), applied to the effective (fresh-or-stored) context. -/
def stateDispatch (input : TurnInput) (context : ConversationContext) : List Event :=
  if context.state == ConversationState.initial then intentDispatch input context
  else
    let context := pushTurn context input.msg
    match context.state with
    | .updating_task =>
      let result := handleTaskUpdate input context
      result.2 ++ [.ctxSave result.1]
    | .collecting_info =>
      let result := handleCollectingInfo input input.ex1 context none
      result.2 ++ [.ctxSave result.1]
    | .confirming =>
      let result := handleConfirmation input context
      result.2 ++ [.ctxSave result.1]
    | .selecting_task =>
      let result := handleTaskSelection input context
      result.2 ++ [.ctxSave result.1]
    | .deleting_task =>
      let result := handleTaskDeletion input context
      result.2 ++ [.ctxSave result.1]
    | _ => intentDispatch input context

/-- `processConversation` (lines 122-293): exact command keywords
short-circuit before the state machine and the oracle; then the stored
context (replaced when absent or stale) drives the state-first
dispatch. -/
def processConversation (input : TurnInput) (stored : Option ConversationContext) :
    List Event :=
  let lowerCaseMessage := jsTrim (jsToLower input.msg)
  if isCancelKeyword lowerCaseMessage then
    handleCancelCommand
  else if isRestartKeyword lowerCaseMessage then
    handleRestartCommand input.now
  else if isHelpKeyword lowerCaseMessage then
    handleHelpCommand
  else
    stateDispatch input (effectiveContext input.now stored)

end FSM

namespace Shot

/-!
Embedding of the single-shot orchestrator `src/unnamed/part_002`
(`WhatsappService` with `processMessageIntelligently`).  It keeps an
in-memory per-user `ConversationHistory` and routes every non-keyword
message through one oracle analysis.
-/

/-- Message role in the in-memory history. -/
inductive Role where
  | user
  | assistant
deriving DecidableEq, Repr

/-- One entry of the in-memory history. -/
structure HistoryMessage where
  role : Role
  content : String
  timestamp : Int
deriving DecidableEq, Repr

/-- `ConversationHistory` (lines 14-25): recent messages plus the last
task discussed (id, title, last mention time). -/
structure ConversationHistory where
  messages : List HistoryMessage := []
  lastTaskDiscussed : Option (String × String × Int) := none
deriving DecidableEq, Repr

/-- `addToConversationHistory` (lines 202-221): append, then keep only
the last 10 messages. -/
def addToConversationHistory (history : ConversationHistory) (role : Role)
    (content : String) (now : Int) : ConversationHistory :=
  let messages := history.messages ++ [{ role := role, content := content, timestamp := now }]
  { history with
    messages := if messages.length > 10 then messages.drop (messages.length - 10)
                else messages }

/-- The duplicate guard of `sendMessage` (lines 1135-1146): the send
proceeds unless `messages.find(m => m.role === 'assistant')` — the first
assistant entry of the retained window — carries exactly the candidate
text. -/
def sendMessageGuard (history : ConversationHistory) (message : String) : Bool :=
  if history.messages.length > 0 then
    match history.messages.find? (fun m => m.role == Role.assistant) with
    | some lastMessage => !(lastMessage.content == message)
    | none => true
  else true

/-- `sendMessage` (lines 1133-1174): the outbound request actually made,
if any. -/
def sendMessage (history : ConversationHistory) (message : String) : List Event :=
  if sendMessageGuard history message then [.sent message] else []

/-- What the spec calls the most recent assistant-authored message
recorded for the user.  Modelled from the spec (§4.5 Outbound Dedup
Guard) as the last assistant entry of the history, for comparison with
the code's guard. -/
def specMostRecentAssistantMessage (history : ConversationHistory) : Option String :=
  ((history.messages.filter (fun m => m.role == Role.assistant)).map
    (fun m => m.content)).getLast?

/-- `changes` of an oracle analysis. -/
structure AnalysisChanges where
  title : Option String := none
  scheduledDate : Option Int := none
  location : Option String := none
  participants : Option (List String) := none
deriving DecidableEq, Repr

/-- `newTaskInfo` of an oracle analysis. -/
structure NewTaskInfo where
  title : Option String := none
  scheduledDate : Option Int := none
  location : Option String := none
  participants : Option (List String) := none
  description : Option String := none
deriving DecidableEq, Repr

/-- The oracle `analyzeConversation` response (`src/unnamed/part_003`
lines 404-527); `intent` stays a string because the code switches on
string values with a default branch; `referencedTaskId` is
`analysis.referencedTask?.id`. -/
structure Analysis where
  intent : String
  confidence : Rat
  referencedTaskId : Option String := none
  changes : AnalysisChanges := {}
  newTaskInfo : NewTaskInfo := {}
  suggestedResponseText : Option String := none
deriving DecidableEq, Repr

/-- `isSameDay` (lines 825-829). -/
def isSameDay (date1 date2 : Int) : Bool :=
  jsGetDate date1 == jsGetDate date2 && jsGetMonth date1 == jsGetMonth date2 &&
    jsGetFullYear date1 == jsGetFullYear date2

/-- `getDayDifference` (lines 834-837). -/
def getDayDifference (date1 date2 : Int) : Int :=
  ((date2 - date1).natAbs / 86400000 : Nat)

/-- `convertUTCToLocal` (lines 746-749); the host timezone is the fixed
reference timezone, so the shift is zero. -/
def convertUTCToLocal (date : Int) : Int :=
  date - jsTimezoneOffsetMin * 60000

/-- `formatDateHumanized` (lines 754-785). -/
def formatDateHumanized (now date : Int) : String :=
  let localDate := convertUTCToLocal date
  if isSameDay localDate now then "hoje"
  else if isSameDay localDate (now + 86400000) then "amanhã"
  else if isSameDay localDate (now + 2 * 86400000) then "depois de amanhã"
  else if getDayDifference now localDate < 7 then weekdayLongBR (jsGetDay localDate)
  else formatDateNoTimeBR localDate

/-- `formatTimeHumanized` (lines 790-820). -/
def formatTimeHumanized (date : Int) : String :=
  let localDate := convertUTCToLocal date
  let hours := jsGetHours localDate
  let minutes := jsGetMinutes localDate
  if minutes == 0 then
    if hours == 12 then "meio-dia"
    else if hours == 0 then "meia-noite"
    else toString hours ++ " horas"
  else if minutes == 30 then
    if hours == 12 then "meio-dia e meia"
    else if hours == 0 then "meia-noite e meia"
    else toString hours ++ " e meia"
  else formatTimeBR localDate

/-- The conflict predicate of `handleTaskUpdate` (lines 367-381): another
task conflicts with the candidate time iff it is not the task being
edited, its instant is within two hours of the candidate, and both fall
on the same calendar day. -/
def conflictsWith (taskToUpdate : Task) (newDate : Int) (task : Task) : Bool :=
  if task.id == taskToUpdate.id then false
  else
    let taskDate := task.scheduledDate
    decide ((taskDate - newDate).natAbs < 7200000) &&
      (jsGetDate taskDate == jsGetDate newDate) &&
      (jsGetMonth taskDate == jsGetMonth newDate) &&
      (jsGetFullYear taskDate == jsGetFullYear newDate)

/-- The `updateData` assembled from truthy `changes` fields
(lines 352-363). -/
structure UpdateData where
  title : Option String := none
  scheduledDate : Option Int := none
  location : Option String := none
  participants : Option (List String) := none
deriving DecidableEq, Repr

/-- Lines 352-363. -/
def buildUpdateData (changes : AnalysisChanges) : UpdateData :=
  { title := if truthyS changes.title then changes.title else none
    scheduledDate := changes.scheduledDate
    location := if truthyS changes.location then changes.location else none
    participants := if changes.participants.isSome then changes.participants else none }

/-- The human-readable change descriptions (lines 394-422 and the
duplicate block 434-463). -/
def describeChanges (taskToUpdate : Task) (updateData : UpdateData) : List String :=
  (match updateData.title with
   | some t => if some t != some taskToUpdate.title then ["o título para \"" ++ t ++ "\""]
               else []
   | none => []) ++
  (match updateData.scheduledDate with
   | some newDate =>
     let oldTime := formatTimeBR taskToUpdate.scheduledDate
     let newTime := formatTimeBR newDate
     if oldTime != newTime then ["o horário de " ++ oldTime ++ " para " ++ newTime]
     else []
   | none => []) ++
  (match updateData.location with
   | some l => if some l != taskToUpdate.location then ["o local para \"" ++ l ++ "\""]
               else []
   | none => []) ++
  (match updateData.participants with
   | some ps => ["os participantes para \"" ++ String.intercalate ", " ps ++ "\""]
   | none => [])

/-- `handleTaskUpdate` (lines 328-476): resolves the referenced task,
assembles the update, detects conflicts when the time changes, and
requests the task-store update in every complete path — a found conflict
is only mentioned in the reply, never blocks the write. -/
def handleTaskUpdate (analysis : Analysis) (userTasks : List Task) :
    List Event × String :=
  match analysis.referencedTaskId with
  | none =>
    ([], "Não consegui identificar qual compromisso você quer alterar. Pode ser mais específico?")
  | some refId =>
    match userTasks.find? (fun t => t.id == refId) with
    | none =>
      ([], "Não encontrei esse compromisso nos seus agendamentos. Pode verificar se ele existe?")
    | some taskToUpdate =>
      let changes := analysis.changes
      if !(changes.title.isSome || changes.scheduledDate.isSome ||
            changes.location.isSome || changes.participants.isSome) then
        ([], "Entendi que você quer alterar algo, mas não consegui identificar exatamente o que. Pode me dizer o que deseja mudar?")
      else
        let updateData := buildUpdateData changes
        let normalResult : List Event × String :=
          let changeDescriptions := describeChanges taskToUpdate updateData
          if changeDescriptions.length == 0 then
            ([.storeUpdate (some taskToUpdate.id)],
             "Não houve alterações necessárias para o compromisso \"" ++
               taskToUpdate.title ++ "\".")
          else
            ([.storeUpdate (some taskToUpdate.id)],
             "Pronto! Alterei " ++ String.intercalate " e " changeDescriptions ++
               " do seu compromisso \"" ++ taskToUpdate.title ++ "\".")
        match updateData.scheduledDate with
        | some newDate =>
          (match userTasks.filter (conflictsWith taskToUpdate newDate) with
           | conflict :: _ =>
             let conflictTime := formatTimeBR conflict.scheduledDate
             let changeDescriptions := describeChanges taskToUpdate updateData
             ([.storeUpdate (some taskToUpdate.id)],
              "Alterei " ++ String.intercalate " e " changeDescriptions ++
                " do seu compromisso \"" ++ taskToUpdate.title ++
                "\". Observação: você já tem outro compromisso \"" ++ conflict.title ++
                "\" às " ++ conflictTime ++ " próximo desse horário.")
           | [] => normalResult)
        | none => normalResult

/-- `handleTaskCreation` (lines 481-532). -/
def handleTaskCreation (analysis : Analysis) (createRes : CallResult Task) (now : Int) :
    List Event × String :=
  let newTaskInfo := analysis.newTaskInfo
  if !(truthyS newTaskInfo.title && newTaskInfo.scheduledDate.isSome) then
    ([], "Preciso de mais informações para criar o compromisso. Qual o título e quando será?")
  else
    let localDate := newTaskInfo.scheduledDate.getD 0
    let utcDate := localDate + jsTimezoneOffsetMin * 60000
    let createEvent := Event.storeCreate newTaskInfo.title (some utcDate)
    match createRes with
    | .ok newTask =>
      let taskDate := convertUTCToLocal newTask.scheduledDate
      let response := "Perfeito! Agendei " ++ newTask.title ++ " para " ++
        formatDateHumanized now taskDate ++ " às " ++ formatTimeHumanized taskDate
      let response := response ++
        (if truthyS newTask.location then " em " ++ newTask.location.getD "" else "")
      let response := response ++
        (match newTask.participants with
         | some ps => if ps.length > 0 then " com " ++ String.intercalate ", " ps else ""
         | none => "")
      ([createEvent], response ++ ".")
    | .err =>
      ([createEvent],
       "Tive um problema ao agendar seu compromisso. Pode tentar novamente com mais detalhes?")

/-- `handleTaskDeletion` (lines 537-563). -/
def handleTaskDeletion (analysis : Analysis) (userTasks : List Task)
    (removeRes : CallResult Unit) : List Event × String :=
  match analysis.referencedTaskId with
  | none =>
    ([], "Não consegui identificar qual compromisso você quer excluir. Pode ser mais específico?")
  | some refId =>
    match userTasks.find? (fun t => t.id == refId) with
    | none => ([], "Não encontrei esse compromisso nos seus agendamentos.")
    | some taskToDelete =>
      match removeRes with
      | .ok _ =>
        ([.storeDelete (some taskToDelete.id)],
         "Pronto! Excluí o compromisso \"" ++ taskToDelete.title ++ "\" da sua agenda.")
      | .err =>
        ([.storeDelete (some taskToDelete.id)],
         "Tive um problema ao excluir o compromisso. Pode tentar novamente?")

/-- The per-task bullet of `handleTaskListing` (lines 589-615). -/
def listingBullet (now : Int) (task : Task) : String :=
  let date := convertUTCToLocal task.scheduledDate
  let dateText :=
    if isSameDay date now then "hoje"
    else if isSameDay (now + 86400000) date then "amanhã"
    else formatDateNoTimeBR date
  "• " ++ task.title ++ ": " ++ dateText ++ " às " ++ formatTimeBR date ++
    (if truthyS task.location then " em " ++ task.location.getD "" else "")

/-- `handleTaskListing` (lines 568-625). -/
def handleTaskListing (userTasks : List Task) (now : Int) : List Event × String :=
  if userTasks.length == 0 then
    ([], "Você não tem nenhum compromisso agendado no momento.")
  else
    let upcomingTasks :=
      sortBy (fun a b => a.scheduledDate ≤ b.scheduledDate)
        (userTasks.filter (fun task => !(convertUTCToLocal task.scheduledDate < now)))
    if upcomingTasks.length == 0 then
      ([], "Você não tem compromissos futuros agendados. Quer criar um novo?")
    else
      ([], "Aqui estão seus próximos compromissos:\n\n" ++
        String.intercalate "\n\n" (upcomingTasks.map (listingBullet now)))

/-- The specific-task answer of `handleTaskQuery` (lines 637-684). -/
def queryTaskAnswer (now : Int) (task : Task) : String :=
  let taskDate := convertUTCToLocal task.scheduledDate
  let dateText :=
    if isSameDay taskDate now then "hoje"
    else if isSameDay (now + 86400000) taskDate then "amanhã"
    else formatDateNoTimeBR taskDate
  let response := "Seu compromisso \"" ++ task.title ++ "\" está agendado para " ++
    dateText ++ " às " ++ formatTimeBR taskDate
  let response := response ++
    (if truthyS task.location then " em " ++ task.location.getD "" else "")
  let response := response ++
    (match task.participants with
     | some ps => if ps.length > 0 then " com " ++ String.intercalate ", " ps else ""
     | none => "")
  response ++ "."

/-- `handleTaskQuery` (lines 630-741). -/
def handleTaskQuery (analysis : Analysis) (userTasks : List Task) (now : Int) :
    List Event × String :=
  match analysis.referencedTaskId with
  | some refId =>
    (match userTasks.find? (fun t => t.id == refId) with
     | none => ([], "Não encontrei esse compromisso nos seus agendamentos.")
     | some task => ([], queryTaskAnswer now task))
  | none =>
    let upcomingTasks :=
      sortBy (fun a b => a.scheduledDate ≤ b.scheduledDate)
        (userTasks.filter (fun task => !(convertUTCToLocal task.scheduledDate < now)))
    match upcomingTasks with
    | [] => ([], "Você não tem compromissos agendados para os próximos dias.")
    | nextTask :: restTasks =>
      let taskDate := convertUTCToLocal nextTask.scheduledDate
      let dateText :=
        if isSameDay taskDate now then "hoje"
        else if isSameDay (now + 86400000) taskDate then "amanhã"
        else formatDateNoTimeBR taskDate
      let response := "Seu próximo compromisso é \"" ++ nextTask.title ++ "\" " ++ dateText ++
        " às " ++ formatTimeBR taskDate
      let response := response ++
        (if truthyS nextTask.location then " em " ++ nextTask.location.getD "" else "")
      let response := response ++
        (if restTasks.length > 0 then
          ". Você tem outros " ++ toString restTasks.length ++
            " compromissos agendados para os próximos dias."
         else ".")
      ([], response)

/-- `processMessageIntelligently` (lines 245-323): record the user turn,
fetch the tasks, analyze, dispatch on the analyzed intent, send the reply
through the dedup guard, record the reply, update the last discussed
task. -/
def processMessageIntelligently (history : ConversationHistory) (msg : String)
    (analysis : Analysis) (userTasks : List Task) (createRes : CallResult Task)
    (removeRes : CallResult Unit) (now : Int) :
    ConversationHistory × List Event × String :=
  let history := addToConversationHistory history .user msg now
  let dispatched : List Event × String :=
    if analysis.intent == "update" then handleTaskUpdate analysis userTasks
    else if analysis.intent == "create" then handleTaskCreation analysis createRes now
    else if analysis.intent == "delete" then handleTaskDeletion analysis userTasks removeRes
    else if analysis.intent == "list" then handleTaskListing userTasks now
    else if analysis.intent == "query" then handleTaskQuery analysis userTasks now
    else
      ([], jsOrS analysis.suggestedResponseText
        "Não entendi completamente. Você pode me dar mais detalhes?")
  let responseText := dispatched.2
  let sendEvents := sendMessage history responseText
  let history := addToConversationHistory history .assistant responseText now
  let history :=
    match analysis.referencedTaskId with
    | some refId =>
      (match userTasks.find? (fun t => t.id == refId) with
       | some task => { history with lastTaskDiscussed := some (task.id, task.title, now) }
       | none => history)
    | none => history
  (history, [Event.storeFindAll, Event.oracleAnalyze] ++ dispatched.1 ++ sendEvents,
   responseText)

/-- The per-task line of this service's `handleListCommand`
(lines 1050-1088). -/
def listCommandLine (today : Int) (task : Task) : String :=
  let date := task.scheduledDate
  let tomorrow := today + 86400000
  let datePhrase :=
    if isSameDay date today then "hoje"
    else if isSameDay date tomorrow then "amanhã"
    else formatDateNoTimeBR date
  "• *" ++ task.title ++ "* - " ++ datePhrase ++ " às " ++ formatTimeBR date ++
    (if truthyS task.location then " em " ++ task.location.getD "" else "") ++
    (match task.participants with
     | some ps => if ps.length > 0 then " com " ++ String.intercalate ", " ps else ""
     | none => "") ++ "\n\n"

/-- `handleListCommand` (lines 1018-1131): fetches and lists the tasks;
no context store writes and no oracle call. -/
def handleListCommand (findAllRes : CallResult (List Task)) (now : Int) : List Event :=
  match findAllRes with
  | .err =>
    [.storeFindAll,
     .sent "Ocorreu um erro ao buscar seus compromissos. Pode tentar novamente mais tarde?"]
  | .ok tasks =>
    if tasks.length == 0 then
      [.storeFindAll,
       .sent "Você não tem compromissos agendados. Para criar um novo compromisso, basta me dizer os detalhes, como por exemplo \"Reunião amanhã às 15h\"."]
    else
      let today := jsStartOfDay now
      let pastTasks := tasks.filter (fun task => task.scheduledDate < today)
      let upcomingTasks :=
        sortBy (fun a b => a.scheduledDate ≤ b.scheduledDate)
          (tasks.filter (fun task => !(task.scheduledDate < today)))
      let message :=
        (if upcomingTasks.length > 0 then
          "Aqui estão seus próximos compromissos:\n\n" ++
            String.join (upcomingTasks.map (listCommandLine today))
         else
          "Você não tem compromissos futuros agendados. Para criar um novo compromisso, basta me dizer os detalhes.\n\n")
      let message := message ++
        (if pastTasks.length > 0 then
          let recentPastTasks :=
            (sortBy (fun a b => b.scheduledDate ≤ a.scheduledDate) pastTasks).take 3
          "Compromissos recentes:\n\n" ++
            String.join (recentPastTasks.map (fun task =>
              "• *" ++ task.title ++ "* - " ++ formatDateLongBR task.scheduledDate ++ "\n\n"))
         else "")
      let message := message ++
        "Para saber mais sobre um compromisso específico, basta perguntar. Para criar, alterar ou excluir compromissos, fale naturalmente comigo."
      [.storeFindAll, .sent message]

/-- Static help text of this service's `handleHelpCommand`
(lines 989-1016). -/
def helpMessageShot : String :=
  "Olá! Sou seu assistente pessoal para gerenciar compromissos. Você pode conversar comigo naturalmente, como falaria com uma pessoa. Alguns exemplos do que posso fazer:\n\n" ++
  "*Para criar compromissos:*\n" ++
  "• \"Marque uma reunião com o time amanhã às 15h\"\n" ++
  "• \"Tenho almoço com a família quarta-feira às 12h\"\n\n" ++
  "*Para ver seus compromissos:*\n" ++
  "• \"Quais são meus compromissos?\"\n" ++
  "• \"O que tenho agendado para amanhã?\"\n\n" ++
  "*Para alterar compromissos:*\n" ++
  "• \"Mude o almoço de amanhã para 13h\"\n" ++
  "• \"A reunião será na sala 2, não na recepção\"\n\n" ++
  "*Para cancelar compromissos:*\n" ++
  "• \"Cancele minha reunião de amanhã\"\n" ++
  "• \"Preciso desmarcar o almoço de quarta\"\n\n" ++
  "*Para saber mais sobre um compromisso:*\n" ++
  "• \"Quando é minha próxima reunião?\"\n" ++
  "• \"Onde será o almoço de amanhã?\"\n\n" ++
  "Fale comigo naturalmente e eu farei o meu melhor para entender e ajudar!"

/-- `processConversation` (lines 141-180): keyword short-circuits
(including `listar`), otherwise the intelligent path. -/
def processConversation (history : ConversationHistory) (msg : String)
    (analysis : Analysis) (userTasks : List Task) (findAllRes : CallResult (List Task))
    (createRes : CallResult Task) (removeRes : CallResult Unit) (now : Int) :
    ConversationHistory × List Event :=
  let lowerCaseMessage := jsTrim (jsToLower msg)
  if isCancelKeyword lowerCaseMessage then
    ({ messages := [], lastTaskDiscussed := none },
     [.ctxClear, .sent "Tudo bem, esqueci nossa conversa anterior. Em que posso ajudar agora?"])
  else if isRestartKeyword lowerCaseMessage then
    ({ messages := [], lastTaskDiscussed := none },
     [.ctxClear,
      .sent "Conversa reiniciada. Estou pronto para ajudar com seus compromissos. O que você precisa hoje?"])
  else if isHelpKeyword lowerCaseMessage then
    (history, [.sent helpMessageShot])
  else if isListKeyword lowerCaseMessage then
    (history, handleListCommand findAllRes now)
  else
    let result := processMessageIntelligently history msg analysis userTasks createRes
      removeRes now
    (result.1, result.2.1)

end Shot

/-! ### Helper lemmas -/

/-- A save at the end of a turn determines the store contents, whatever
came before. -/
theorem finalStore_append_save (now : Int) (events : List Event)
    (context : ConversationContext) (stored : Option ConversationContext) :
    finalStore now (events ++ [Event.ctxSave context]) stored =
      some (Conv.persistContext now context) := by
  unfold finalStore
  rw [List.foldl_append]
  rfl

/-- `handleCollectingInfo` either moves to `CONFIRMING` with a complete
slot model — a truthy title and a set instant — or leaves the state
unchanged. -/
theorem collectingInfo_state (input : FSM.TurnInput) (ex : Option TaskInformation)
    (c : ConversationContext) (prev : Option TaskData) :
    ((FSM.handleCollectingInfo input ex c prev).1.state = ConversationState.confirming ∧
     truthyS (FSM.handleCollectingInfo input ex c prev).1.taskData.action = true ∧
     (FSM.handleCollectingInfo input ex c prev).1.taskData.dateTime.isSome = true) ∨
    (FSM.handleCollectingInfo input ex c prev).1.state = c.state := by
  unfold FSM.handleCollectingInfo
  dsimp only
  split
  next h =>
    rw [Bool.and_eq_true] at h
    split
    · exact Or.inl ⟨rfl, h.1, h.2⟩
    · exact Or.inl ⟨rfl, h.1, h.2⟩
  next h => exact Or.inr rfl

/-- The events of `handleCollectingInfo` contain no task-store write. -/
theorem collectingInfo_no_write (input : FSM.TurnInput) (ex : Option TaskInformation)
    (c : ConversationContext) (prev : Option TaskData) :
    ((FSM.handleCollectingInfo input ex c prev).2).filter isTaskWrite = [] := by
  unfold FSM.handleCollectingInfo
  dsimp only
  split
  · split <;> rfl
  · rfl

/-- An outbound send, whether delivered or suppressed, requests no
task-store write. -/
theorem sendMessage_no_write (history : Shot.ConversationHistory) (message : String) :
    (Shot.sendMessage history message).filter isTaskWrite = [] := by
  unfold Shot.sendMessage
  split <;> rfl

/-- The single-shot list command never invokes the oracle. -/
theorem handleListCommand_no_oracle (far : CallResult (List Task)) (now : Int) :
    (Shot.handleListCommand far now).filter isOracleCall = [] := by
  unfold Shot.handleListCommand
  rcases far with tasks | _
  · dsimp only
    split <;> rfl
  · rfl

/-- The strings accepted by the cancel keyword check. -/
theorem isCancelKeyword_eq (l : String) (h : isCancelKeyword l = true) :
    l = "cancelar" ∨ l = "cancel" ∨ l = "/cancelar" := by
  simpa only [isCancelKeyword, Bool.or_eq_true, beq_iff_eq, or_assoc] using h

/-- The strings accepted by the restart keyword check. -/
theorem isRestartKeyword_eq (l : String) (h : isRestartKeyword l = true) :
    l = "reiniciar" ∨ l = "restart" ∨ l = "/reiniciar" := by
  simpa only [isRestartKeyword, Bool.or_eq_true, beq_iff_eq, or_assoc] using h

/-- The strings accepted by the help keyword check. -/
theorem isHelpKeyword_eq (l : String) (h : isHelpKeyword l = true) :
    l = "ajuda" ∨ l = "help" ∨ l = "/ajuda" := by
  simpa only [isHelpKeyword, Bool.or_eq_true, beq_iff_eq, or_assoc] using h

/-- The strings accepted by the list keyword check. -/
theorem isListKeyword_eq (l : String) (h : isListKeyword l = true) :
    l = "listar" ∨ l = "compromissos" ∨ l = "/listar" := by
  simpa only [isListKeyword, Bool.or_eq_true, beq_iff_eq, or_assoc] using h

/-! ### Claim theorems -/

/-- C3: whenever a turn moves the dialogue from `COLLECTING_INFO` to
`CONFIRMING`, the slot model presented for confirmation is complete:
its title is set (non-empty) and its instant is set. -/
theorem collecting_to_confirming_complete (input : FSM.TurnInput)
    (c c' : ConversationContext)
    (h1 : c.state = ConversationState.collecting_info)
    (h2 : finalStore input.now (FSM.processConversation input (some c)) (some c) = some c')
    (h3 : c'.state = ConversationState.confirming) :
    truthyS c'.taskData.action = true ∧ c'.taskData.dateTime.isSome = true := by
  by_cases hk1 : isCancelKeyword (jsTrim (jsToLower input.msg)) = true
  · unfold FSM.processConversation at h2
    simp only [hk1, if_true] at h2
    simp [FSM.handleCancelCommand, finalStore] at h2
  by_cases hk2 : isRestartKeyword (jsTrim (jsToLower input.msg)) = true
  · unfold FSM.processConversation at h2
    simp only [hk1, hk2, if_true, if_false, Bool.false_eq_true] at h2
    simp [FSM.handleRestartCommand, finalStore] at h2
    rw [← h2] at h3
    simp [Conv.persistContext, Conv.createInitialContext] at h3
  by_cases hk3 : isHelpKeyword (jsTrim (jsToLower input.msg)) = true
  · unfold FSM.processConversation at h2
    simp only [hk1, hk2, hk3, if_true, if_false, Bool.false_eq_true] at h2
    simp [FSM.handleHelpCommand, finalStore] at h2
    rw [← h2] at h3
    rw [h1] at h3
    exact absurd h3 (by decide)
  -- non-keyword turn: the state machine runs on the effective context
  have hec : (FSM.effectiveContext input.now (some c)).state =
      ConversationState.collecting_info := by
    unfold FSM.effectiveContext
    by_cases hstale : Conv.isConversationStale input.now c = true <;>
      simp [hstale, Conv.createInitialContext, h1]
  unfold FSM.processConversation at h2
  simp only [hk1, hk2, hk3, if_false, Bool.false_eq_true] at h2
  unfold FSM.stateDispatch at h2
  rw [show ((FSM.effectiveContext input.now (some c)).state ==
      ConversationState.initial) = false by rw [hec]; rfl] at h2
  simp only [Bool.false_eq_true, if_false] at h2
  rw [show (FSM.pushTurn (FSM.effectiveContext input.now (some c)) input.msg).state =
      ConversationState.collecting_info from hec] at h2
  rw [finalStore_append_save] at h2
  have hc' := Option.some.inj h2
  rcases collectingInfo_state input input.ex1
      (FSM.pushTurn (FSM.effectiveContext input.now (some c)) input.msg) none with
    ⟨hst, hA, hD⟩ | hsame
  · rw [← hc']
    exact ⟨hA, hD⟩
  · exfalso
    rw [← hc'] at h3
    have : (FSM.handleCollectingInfo input input.ex1
        (FSM.pushTurn (FSM.effectiveContext input.now (some c)) input.msg) none).1.state =
        ConversationState.confirming := h3
    rw [hsame] at this
    rw [show (FSM.pushTurn (FSM.effectiveContext input.now (some c)) input.msg).state =
        ConversationState.collecting_info from hec] at this
    exact absurd this (by decide)

/-- A collecting-state turn whose extraction completes the slot model. -/
def collectSampleInput : FSM.TurnInput :=
  { userId := "u1", msg := "Almoço amanhã 12:30", now := 1710756000000,
    crud := { operation := "none", confidence := mkRat 0 1 },
    ex1 := some { action := some "Almoço", dateTime := some 1710765000000 } }

/-- A fresh collecting context one minute old. -/
def collectSampleCtx : ConversationContext :=
  { state := .collecting_info, taskData := { fullText := [] },
    lastUpdateTime := 1710756000000 - 60000 }

/-- The context stored at the end of the sample collecting turn. -/
def collectSampleResult : ConversationContext :=
  { state := .confirming,
    taskData := { action := some "Almoço", dateTime := some 1710765000000,
                  fullText := ["Almoço amanhã 12:30", "Almoço amanhã 12:30"] },
    lastUpdateTime := 1710756000000 }

/-- Closed instance of C3 at the sample collecting turn. -/
theorem collecting_to_confirming_complete_witness :
    truthyS collectSampleResult.taskData.action = true ∧
    collectSampleResult.taskData.dateTime.isSome = true :=
  collecting_to_confirming_complete collectSampleInput collectSampleCtx
    collectSampleResult rfl (by decide) rfl

/-- C10: `getConversationState` returns `null` on any store error, not
only on the absent-row code `PGRST116`, and a `null` context is
indistinguishable from an absent one — the next turn runs on a freshly
initialized context. -/
theorem read_error_treated_as_absent (e : Conv.SupabaseError) (now : Int) :
    Conv.getConversationState (Except.error e) = none ∧
    FSM.effectiveContext now (Conv.getConversationState (Except.error e)) =
      Conv.createInitialContext now := by
  have h : Conv.getConversationState (Except.error e) = none := by
    unfold Conv.getConversationState Conv.getConversationStateInner
    by_cases hc : e.code = "PGRST116" <;> simp [hc]
  exact ⟨h, by rw [h]; rfl⟩

/-- C5: a stored context strictly older than 30 minutes is never reused:
the whole turn behaves exactly as if no context were stored, so a freshly
initialized context is used instead. -/
theorem stale_context_never_reused (input : FSM.TurnInput)
    (context : ConversationContext)
    (h : context.lastUpdateTime < input.now - 30 * 60000) :
    FSM.effectiveContext input.now (some context) = Conv.createInitialContext input.now ∧
    FSM.processConversation input (some context) =
      FSM.processConversation input none := by
  have hs : Conv.isConversationStale input.now context = true := by
    unfold Conv.isConversationStale
    exact decide_eq_true h
  constructor
  · unfold FSM.effectiveContext
    simp [hs]
  · unfold FSM.processConversation FSM.effectiveContext
    simp [hs]

/-- Closed instance of C5: a context 31 minutes old is replaced. -/
theorem stale_context_never_reused_witness :
    (({ state := ConversationState.confirming,
        taskData := { action := some "Almoço" }, lastUpdateTime := 1710756000000 - 31 * 60000 }
          : ConversationContext)).lastUpdateTime < 1710756000000 - 30 * 60000 ∧
    FSM.effectiveContext 1710756000000
        (some { state := ConversationState.confirming,
                taskData := { action := some "Almoço" },
                lastUpdateTime := 1710756000000 - 31 * 60000 }) =
      Conv.createInitialContext 1710756000000 ∧
    FSM.processConversation
        { userId := "u1", msg := "sim", now := 1710756000000,
          crud := { operation := "none", confidence := mkRat 1 2 } }
        (some { state := ConversationState.confirming,
                taskData := { action := some "Almoço" },
                lastUpdateTime := 1710756000000 - 31 * 60000 }) =
      FSM.processConversation
        { userId := "u1", msg := "sim", now := 1710756000000,
          crud := { operation := "none", confidence := mkRat 1 2 } }
        none :=
  ⟨by decide,
   (stale_context_never_reused
     { userId := "u1", msg := "sim", now := 1710756000000,
       crud := { operation := "none", confidence := mkRat 1 2 } }
     { state := ConversationState.confirming,
       taskData := { action := some "Almoço" },
       lastUpdateTime := 1710756000000 - 31 * 60000 }
     (by decide)).1,
   (stale_context_never_reused
     { userId := "u1", msg := "sim", now := 1710756000000,
       crud := { operation := "none", confidence := mkRat 1 2 } }
     { state := ConversationState.confirming,
       taskData := { action := some "Almoço" },
       lastUpdateTime := 1710756000000 - 31 * 60000 }
     (by decide)).2⟩

/-- C6: slot merging is field-wise override: a non-empty field of the
extraction replaces the previous value, an absent field leaves it
untouched, a non-empty participants array replaces the previous array
wholesale, and merging an empty extraction is the identity. -/
theorem merge_field_wise_override (P : TaskData) :
    FSM.mergeExtractedInfo P {} = P ∧
    (∀ N : TaskInformation,
      (∀ s, N.action = some s → s ≠ "" →
        (FSM.mergeExtractedInfo P N).action = some s) ∧
      (N.action = none → (FSM.mergeExtractedInfo P N).action = P.action) ∧
      (∀ t, N.dateTime = some t → (FSM.mergeExtractedInfo P N).dateTime = some t) ∧
      (N.dateTime = none → (FSM.mergeExtractedInfo P N).dateTime = P.dateTime) ∧
      (∀ s, N.location = some s → s ≠ "" →
        (FSM.mergeExtractedInfo P N).location = some s) ∧
      (N.location = none → (FSM.mergeExtractedInfo P N).location = P.location) ∧
      (∀ ps, N.participants = some ps → ps ≠ [] →
        (FSM.mergeExtractedInfo P N).participants = some ps) ∧
      (N.participants = none →
        (FSM.mergeExtractedInfo P N).participants = P.participants) ∧
      (FSM.mergeExtractedInfo P N).fullText = P.fullText) := by
  constructor
  · rfl
  · intro N
    refine ⟨?_, ?_, ?_, ?_, ?_, ?_, ?_, ?_, ?_⟩
    · intro s hs hne
      simp [FSM.mergeExtractedInfo, hs, truthyS, hne]
    · intro hs
      simp [FSM.mergeExtractedInfo, hs, truthyS]
    · intro t ht
      simp [FSM.mergeExtractedInfo, ht]
    · intro ht
      simp [FSM.mergeExtractedInfo, ht]
    · intro s hs hne
      simp [FSM.mergeExtractedInfo, hs, truthyS, hne]
    · intro hs
      simp [FSM.mergeExtractedInfo, hs, truthyS]
    · intro ps hps hne
      simp [FSM.mergeExtractedInfo, hps]
    · intro hps
      simp [FSM.mergeExtractedInfo, hps]
    · rfl

/-- Closed instance of C6 at concrete slot models. -/
theorem merge_field_wise_override_witness :
    FSM.mergeExtractedInfo
        { action := some "Almoço", dateTime := some 1710765000000,
          participants := some ["Ana", "Bia"], fullText := ["x"] } {} =
      { action := some "Almoço", dateTime := some 1710765000000,
        participants := some ["Ana", "Bia"], fullText := ["x"] } ∧
    (FSM.mergeExtractedInfo
        { action := some "Almoço", dateTime := some 1710765000000,
          participants := some ["Ana", "Bia"], fullText := ["x"] }
        { action := some "Jantar", participants := some ["Carla"] }).action =
      some "Jantar" ∧
    (FSM.mergeExtractedInfo
        { action := some "Almoço", dateTime := some 1710765000000,
          participants := some ["Ana", "Bia"], fullText := ["x"] }
        { action := some "Jantar", participants := some ["Carla"] }).participants =
      some ["Carla"] ∧
    (FSM.mergeExtractedInfo
        { action := some "Almoço", dateTime := some 1710765000000,
          participants := some ["Ana", "Bia"], fullText := ["x"] }
        { action := some "Jantar", participants := some ["Carla"] }).dateTime =
      some 1710765000000 :=
  ⟨(merge_field_wise_override _).1,
   ((merge_field_wise_override _).2 _).1 "Jantar" rfl (by decide),
   ((merge_field_wise_override _).2 _).2.2.2.2.2.2.1 ["Carla"] rfl (by decide),
   ((merge_field_wise_override _).2 _).2.2.2.1 rfl⟩

/-! ### Concrete sample turns used by the closed theorems -/

/-- A sample clock: 2024-03-18, 10:00 in the reference timezone. -/
def confirmNow : Int := 19800 * 86400000 + 10 * 3600000

/-- A sample appointment instant: 2024-03-18, 12:30. -/
def confirmWhen : Int := 19800 * 86400000 + 12 * 3600000 + 1800000

/-- A user one minute into the `CONFIRMING` state with a complete slot
model. -/
def confirmCtx : ConversationContext :=
  { state := .confirming,
    taskData := { action := some "Almoço", dateTime := some confirmWhen,
                  fullText := ["Almoço 12:30"] },
    lastUpdateTime := confirmNow - 60000 }

/-- The affirmative turn `"sim"` with a succeeding task store. -/
def confirmInputOk : FSM.TurnInput :=
  { userId := "u1", msg := "sim", now := confirmNow,
    crud := { operation := "none", confidence := mkRat 0 1 },
    createRes := .ok () }

/-- The affirmative turn `"sim"` with the task-store create raising. -/
def confirmInputErr : FSM.TurnInput :=
  { confirmInputOk with createRes := .err }

/-- A history already holding an older, different assistant message. -/
def dedupHistory : Shot.ConversationHistory :=
  { messages := [{ role := .assistant, content := "A", timestamp := 0 }] }

/-- An analysis whose reply is the fixed text `"B"`. -/
def dedupAnalysis : Shot.Analysis :=
  { intent := "clarify", confidence := mkRat 9 10, suggestedResponseText := some "B" }

/-- First turn answered with `"B"`. -/
def dedupTurn1 : Shot.ConversationHistory × List Event × String :=
  Shot.processMessageIntelligently dedupHistory "oi" dedupAnalysis [] (.ok default)
    (.ok ()) 1000

/-- Immediately following turn answered with the identical text `"B"`. -/
def dedupTurn2 : Shot.ConversationHistory × List Event × String :=
  Shot.processMessageIntelligently dedupTurn1.1 "oi de novo" dedupAnalysis [] (.ok default)
    (.ok ()) 2000

/-- A low-confidence create classification with complete new-task info. -/
def lowConfAnalysis : Shot.Analysis :=
  { intent := "create", confidence := mkRat 3 10,
    newTaskInfo := { title := some "Reunião", scheduledDate := some confirmWhen } }

/-- The task row echoed by the store for the low-confidence create. -/
def lowConfTask : Task :=
  { id := "t9", userId := "u1", title := "Reunião", scheduledDate := confirmWhen }

/-- C9: a turn that completes a create successfully (affirmative reply in
`CONFIRMING`, store create succeeds) clears the stored context but then
re-saves the turn's `CONFIRMING` context, so a context record survives
the turn instead of being reset to absent. -/
theorem successful_create_leaves_context :
    Event.storeCreate (some "Almoço") (some confirmWhen) ∈
      FSM.processConversation confirmInputOk (some confirmCtx) ∧
    Event.ctxClear ∈ FSM.processConversation confirmInputOk (some confirmCtx) ∧
    finalStore confirmNow (FSM.processConversation confirmInputOk (some confirmCtx))
        (some confirmCtx) ≠ none ∧
    (finalStore confirmNow (FSM.processConversation confirmInputOk (some confirmCtx))
        (some confirmCtx)).map (fun c => c.state) = some ConversationState.confirming := by
  decide

/-- C1: with an older different assistant message in the retained window,
the guard compares against that first entry, so the identical reply `"B"`
is sent twice in immediate succession — the second send is not
suppressed even though `"B"` is byte-identical to the most recent
assistant-authored message. -/
theorem duplicate_send_not_suppressed :
    Shot.specMostRecentAssistantMessage dedupTurn1.1 = some "B" ∧
    sentTexts dedupTurn1.2.1 = ["B"] ∧
    sentTexts dedupTurn2.2.1 = ["B"] := by
  decide

/-- Counterexample to C2 as stated: when the task-store create raises
during the confirmation turn, the reply is `createTask`'s own message
(not the orchestrator's single fixed one) and the stored entry does not
survive unchanged — it is cleared and then overwritten. -/
theorem confirmation_failure_rewrites_state :
    Event.ctxClear ∈ FSM.processConversation confirmInputErr (some confirmCtx) ∧
    sentTexts (FSM.processConversation confirmInputErr (some confirmCtx)) =
      [FSM.createTaskErrorMessage] ∧
    FSM.createTaskErrorMessage ≠ FSM.processConversationErrorMessage ∧
    finalStore confirmNow (FSM.processConversation confirmInputErr (some confirmCtx))
        (some confirmCtx) ≠ some confirmCtx := by
  decide

/-- C2 as amended: a task-store error during the confirmation turn is
caught inside the create handler — the turn completes and answers that
handler's own apologetic message — but the conversation state store is
not left untouched: the entry is cleared and then re-saved as the turn's
mutated `CONFIRMING` context (the inbound text appended, the timestamp
refreshed), so the user retries from `CONFIRMING`. -/
theorem confirmation_failure_behavior (input : FSM.TurnInput) (c : ConversationContext)
    (h1 : c.state = ConversationState.confirming)
    (h2 : Conv.isConversationStale input.now c = false)
    (h3 : FSM.isAffirmative input.msg = true)
    (h4 : isControlKeyword input.msg = false)
    (h5 : input.createRes = CallResult.err) :
    FSM.processConversation input (some c) =
      [Event.storeCreate c.taskData.action c.taskData.dateTime,
       Event.sent FSM.createTaskErrorMessage, Event.ctxClear,
       Event.ctxSave (FSM.pushTurn c input.msg)] ∧
    finalStore input.now (FSM.processConversation input (some c)) (some c) =
      some (Conv.persistContext input.now (FSM.pushTurn c input.msg)) := by
  have h4' := h4
  unfold isControlKeyword at h4'
  simp only [Bool.or_eq_false_iff] at h4'
  obtain ⟨⟨hk1, hk2⟩, hk3⟩ := h4'
  have part1 : FSM.processConversation input (some c) =
      [Event.storeCreate c.taskData.action c.taskData.dateTime,
       Event.sent FSM.createTaskErrorMessage, Event.ctxClear,
       Event.ctxSave (FSM.pushTurn c input.msg)] := by
    unfold FSM.processConversation
    simp only [hk1, hk2, hk3, Bool.false_eq_true, if_false]
    unfold FSM.effectiveContext
    simp only [h2, Bool.false_eq_true, if_false]
    unfold FSM.stateDispatch
    rw [show (c.state == ConversationState.initial) = false by rw [h1]; rfl]
    simp only [Bool.false_eq_true, if_false]
    rw [show (FSM.pushTurn c input.msg).state = ConversationState.confirming from h1]
    unfold FSM.handleConfirmation
    simp only [h3, if_true]
    unfold FSM.createTask
    rw [h5]
    rfl
  exact ⟨part1, by rw [part1]; rfl⟩

set_option maxRecDepth 8000 in
/-- Closed instance of the amended C2 at the sample failing confirmation
turn. -/
theorem confirmation_failure_behavior_witness :
    FSM.processConversation confirmInputErr (some confirmCtx) =
      [Event.storeCreate confirmCtx.taskData.action confirmCtx.taskData.dateTime,
       Event.sent FSM.createTaskErrorMessage, Event.ctxClear,
       Event.ctxSave (FSM.pushTurn confirmCtx confirmInputErr.msg)] ∧
    finalStore confirmInputErr.now
        (FSM.processConversation confirmInputErr (some confirmCtx)) (some confirmCtx) =
      some (Conv.persistContext confirmInputErr.now
        (FSM.pushTurn confirmCtx confirmInputErr.msg)) :=
  confirmation_failure_behavior confirmInputErr confirmCtx rfl (by decide) (by decide)
    (by decide) rfl

set_option maxRecDepth 8000 in
/-- Counterexample to C8 as stated: the `ajuda` keyword performs the help
side effect from every state, but the dialogue does not return to
`INITIAL` — the stored `CONFIRMING` context survives untouched. -/
theorem help_keyword_keeps_state :
    FSM.processConversation { confirmInputOk with msg := "ajuda" } (some confirmCtx) =
      [Event.sent FSM.helpMessage] ∧
    finalStore confirmNow
        (FSM.processConversation { confirmInputOk with msg := "ajuda" } (some confirmCtx))
        (some confirmCtx) = some confirmCtx ∧
    confirmCtx.state ≠ ConversationState.initial := by
  decide

/-- C8 as amended: a message whose trimmed lowercased text exactly
matches one of the fixed keyword strings (matching is case-insensitive
via lowercasing but accent-sensitive) short-circuits in every dialogue
state without invoking the oracle; cancel clears the stored context,
restart replaces it with a fresh collecting context, help leaves the
stored entry untouched, and the list keyword exists only in the
single-shot orchestrator, where it answers from the task store alone. -/
theorem control_keyword_shortcircuit :
    (∀ (input : FSM.TurnInput) (stored : Option ConversationContext),
      (isCancelKeyword (jsTrim (jsToLower input.msg)) = true →
        FSM.processConversation input stored = FSM.handleCancelCommand ∧
        finalStore input.now (FSM.processConversation input stored) stored = none ∧
        (FSM.processConversation input stored).filter isOracleCall = []) ∧
      (isRestartKeyword (jsTrim (jsToLower input.msg)) = true →
        FSM.processConversation input stored = FSM.handleRestartCommand input.now ∧
        finalStore input.now (FSM.processConversation input stored) stored =
          some (Conv.persistContext input.now (Conv.createInitialContext input.now)) ∧
        (FSM.processConversation input stored).filter isOracleCall = []) ∧
      (isHelpKeyword (jsTrim (jsToLower input.msg)) = true →
        FSM.processConversation input stored = FSM.handleHelpCommand ∧
        finalStore input.now (FSM.processConversation input stored) stored = stored ∧
        (FSM.processConversation input stored).filter isOracleCall = [])) ∧
    (∀ (history : Shot.ConversationHistory) (msg : String) (analysis : Shot.Analysis)
        (tasks : List Task) (far : CallResult (List Task)) (cr : CallResult Task)
        (rr : CallResult Unit) (now : Int),
      isListKeyword (jsTrim (jsToLower msg)) = true →
      (Shot.processConversation history msg analysis tasks far cr rr now).2 =
        Shot.handleListCommand far now ∧
      ((Shot.processConversation history msg analysis tasks far cr rr now).2).filter
        isOracleCall = []) := by
  constructor
  · intro input stored
    refine ⟨?_, ?_, ?_⟩
    · intro h
      rcases isCancelKeyword_eq _ h with h' | h' | h' <;>
        · unfold FSM.processConversation
          rw [h']
          exact ⟨rfl, rfl, rfl⟩
    · intro h
      rcases isRestartKeyword_eq _ h with h' | h' | h' <;>
        · unfold FSM.processConversation
          rw [h']
          exact ⟨rfl, rfl, rfl⟩
    · intro h
      rcases isHelpKeyword_eq _ h with h' | h' | h' <;>
        · unfold FSM.processConversation
          rw [h']
          exact ⟨rfl, rfl, rfl⟩
  · intro history msg analysis tasks far cr rr now h
    rcases isListKeyword_eq _ h with h' | h' | h' <;>
      · unfold Shot.processConversation
        rw [h']
        exact ⟨rfl, handleListCommand_no_oracle far now⟩

set_option maxRecDepth 8000 in
/-- Closed instance of the amended C8: a `CANCELAR` turn and a `listar`
turn, each short-circuiting. -/
theorem control_keyword_shortcircuit_witness :
    FSM.processConversation { confirmInputOk with msg := " CANCELAR " }
        (some confirmCtx) = FSM.handleCancelCommand ∧
    finalStore confirmNow
        (FSM.processConversation { confirmInputOk with msg := " CANCELAR " }
          (some confirmCtx)) (some confirmCtx) = none ∧
    (Shot.processConversation dedupHistory "listar" dedupAnalysis [] (.ok [])
        (.ok default) (.ok ()) 1000).2 = Shot.handleListCommand (.ok []) 1000 :=
  ⟨((control_keyword_shortcircuit.1 { confirmInputOk with msg := " CANCELAR " }
      (some confirmCtx)).1 (by decide)).1,
   ((control_keyword_shortcircuit.1 { confirmInputOk with msg := " CANCELAR " }
      (some confirmCtx)).1 (by decide)).2.1,
   (control_keyword_shortcircuit.2 dedupHistory "listar" dedupAnalysis [] (.ok [])
      (.ok default) (.ok ()) 1000 (by decide)).1⟩

/-- Counterexample to C4 as stated: the single-shot orchestrator ignores
confidence, so a create intent at confidence 0.3 performs a task-store
create on that turn instead of asking a clarifying question. -/
theorem low_confidence_create_executes :
    lowConfAnalysis.confidence ≤ mkRat 6 10 ∧
    (Shot.processMessageIntelligently { } "marca uma reunião" lowConfAnalysis []
        (.ok lowConfTask) (.ok ()) confirmNow).2.1.filter isTaskWrite =
      [Event.storeCreate (some "Reunião") (some confirmWhen)] := by
  decide

/-- A stored context sitting in the `INITIAL` state. -/
def initialSampleCtx : ConversationContext :=
  { state := .initial, taskData := { fullText := [] },
    lastUpdateTime := 1710756000000 - 60000 }

/-- A low-confidence classified turn arriving in the `INITIAL` state. -/
def initialSampleInput : FSM.TurnInput :=
  { userId := "u1", msg := "olá", now := 1710756000000,
    crud := { operation := "create", confidence := mkRat 1 2 } }

/-- C4 as amended: in the FSM orchestrator an `INITIAL`-state turn with
confidence ≤ 0.6 performs no task-store create/update/delete — the
message is treated as appointment-creation input rather than necessarily
a clarifying question; in the single-shot orchestrator only the `clarify`
intent guarantees a clarifying reply with no task-store operation, and
the confidence value plays no role at all in its dispatch. -/
theorem low_confidence_degrades :
    (∀ (input : FSM.TurnInput) (c : ConversationContext),
      c.state = ConversationState.initial →
      Conv.isConversationStale input.now c = false →
      isControlKeyword input.msg = false →
      input.crud.confidence ≤ mkRat 6 10 →
      (FSM.processConversation input (some c)).filter isTaskWrite = [] ∧
      Event.oracleIntent ∈ FSM.processConversation input (some c)) ∧
    (∀ (history : Shot.ConversationHistory) (msg : String) (analysis : Shot.Analysis)
        (tasks : List Task) (cr : CallResult Task) (rr : CallResult Unit) (now : Int),
      analysis.intent = "clarify" →
      ((Shot.processMessageIntelligently history msg analysis tasks cr rr now).2.1).filter
          isTaskWrite = [] ∧
      (Shot.processMessageIntelligently history msg analysis tasks cr rr now).2.2 =
        jsOrS analysis.suggestedResponseText
          "Não entendi completamente. Você pode me dar mais detalhes?") ∧
    (∀ (history : Shot.ConversationHistory) (msg : String) (analysis : Shot.Analysis)
        (conf : Rat) (tasks : List Task) (cr : CallResult Task) (rr : CallResult Unit)
        (now : Int),
      Shot.processMessageIntelligently history msg { analysis with confidence := conf }
          tasks cr rr now =
        Shot.processMessageIntelligently history msg analysis tasks cr rr now) := by
  refine ⟨?_, ?_, ?_⟩
  · intro input c h1 h2 h3 h4
    have h3' := h3
    unfold isControlKeyword at h3'
    simp only [Bool.or_eq_false_iff] at h3'
    obtain ⟨⟨hk1, hk2⟩, hk3⟩ := h3'
    unfold FSM.processConversation
    simp only [hk1, hk2, hk3, Bool.false_eq_true, if_false]
    unfold FSM.effectiveContext
    simp only [h2, Bool.false_eq_true, if_false]
    unfold FSM.stateDispatch
    rw [show (c.state == ConversationState.initial) = true by rw [h1]; rfl]
    simp only [if_true]
    unfold FSM.intentDispatch
    have hconf : (input.crud.confidence > mkRat 6 10) = False :=
      eq_false (not_lt.mpr h4)
    simp only [hconf, if_false]
    constructor
    · simp only [List.filter_append, collectingInfo_no_write]
      rfl
    · simp
  · intro history msg analysis tasks cr rr now ha
    unfold Shot.processMessageIntelligently
    rw [show (analysis.intent == "update") = false by rw [ha]; rfl]
    rw [show (analysis.intent == "create") = false by rw [ha]; rfl]
    rw [show (analysis.intent == "delete") = false by rw [ha]; rfl]
    rw [show (analysis.intent == "list") = false by rw [ha]; rfl]
    rw [show (analysis.intent == "query") = false by rw [ha]; rfl]
    simp only [Bool.false_eq_true, if_false]
    constructor
    · simp only [List.filter_append, sendMessage_no_write]
      rfl
    · trivial
  · intro history msg analysis conf tasks cr rr now
    cases analysis
    rfl

/-- Closed instance of the amended C4: a confidence-0.5 turn from
`INITIAL` requests no task-store write, and a concrete `clarify` turn
answers the suggested text without any task-store operation. -/
theorem low_confidence_degrades_witness :
    (FSM.processConversation initialSampleInput (some initialSampleCtx)).filter
        isTaskWrite = [] ∧
    ((Shot.processMessageIntelligently dedupHistory "oi" dedupAnalysis [] (.ok default)
        (.ok ()) 1000).2.1).filter isTaskWrite = [] ∧
    (Shot.processMessageIntelligently dedupHistory "oi" dedupAnalysis [] (.ok default)
        (.ok ()) 1000).2.2 = "B" :=
  ⟨(low_confidence_degrades.1 initialSampleInput initialSampleCtx rfl (by decide)
      (by decide) (by decide)).1,
   (low_confidence_degrades.2.1 dedupHistory "oi" dedupAnalysis [] (.ok default)
      (.ok ()) 1000 rfl).1,
   (low_confidence_degrades.2.1 dedupHistory "oi" dedupAnalysis [] (.ok default)
      (.ok ()) 1000 rfl).2⟩

/-- The task being updated in the conflict sample. -/
def conflictEdited : Task :=
  { id := "t1", userId := "u1", title := "Reunião", scheduledDate := confirmWhen }

/-- Another task one hour after the candidate time, on the same day. -/
def conflictOther : Task :=
  { id := "t2", userId := "u1", title := "Almoço", scheduledDate := confirmWhen + 3600000 }

/-- The sample task list. -/
def conflictTasks : List Task := [conflictEdited, conflictOther]

/-- An update analysis moving the edited task to a conflicting time. -/
def conflictAnalysis : Shot.Analysis :=
  { intent := "update", confidence := mkRat 9 10, referencedTaskId := some "t1",
    changes := { scheduledDate := some (confirmWhen + 1800000) } }

/-- C7: a task is in the detected conflict list iff it is not the task
being edited, lies within two hours of the candidate instant, and falls
on the same calendar day; and whenever a referenced task and a non-empty
change set are present, the task-store update is requested exactly once
whether or not a conflict is found — a conflict only appends an advisory
note to the reply. -/
theorem conflict_detector_advisory :
    (∀ (edited : Task) (newDate : Int) (tasks : List Task) (t : Task),
      t ∈ tasks.filter (Shot.conflictsWith edited newDate) ↔
        (t ∈ tasks ∧ ¬ t.id = edited.id ∧
         (t.scheduledDate - newDate).natAbs < 7200000 ∧
         jsGetDate t.scheduledDate = jsGetDate newDate ∧
         jsGetMonth t.scheduledDate = jsGetMonth newDate ∧
         jsGetFullYear t.scheduledDate = jsGetFullYear newDate)) ∧
    (∀ (analysis : Shot.Analysis) (tasks : List Task) (refId : String) (edited : Task),
      analysis.referencedTaskId = some refId →
      tasks.find? (fun t => t.id == refId) = some edited →
      (analysis.changes.title.isSome || analysis.changes.scheduledDate.isSome ||
        analysis.changes.location.isSome || analysis.changes.participants.isSome) = true →
      (Shot.handleTaskUpdate analysis tasks).1 = [Event.storeUpdate (some edited.id)] ∧
      (∀ newDate conflict rest,
        analysis.changes.scheduledDate = some newDate →
        tasks.filter (Shot.conflictsWith edited newDate) = conflict :: rest →
        (Shot.handleTaskUpdate analysis tasks).2 =
          "Alterei " ++ String.intercalate " e "
              (Shot.describeChanges edited (Shot.buildUpdateData analysis.changes)) ++
            " do seu compromisso \"" ++ edited.title ++
            "\". Observação: você já tem outro compromisso \"" ++ conflict.title ++
            "\" às " ++ formatTimeBR conflict.scheduledDate ++ " próximo desse horário.")) := by
  constructor
  · intro edited newDate tasks t
    rw [List.mem_filter]
    constructor
    · rintro ⟨hmem, hc⟩
      unfold Shot.conflictsWith at hc
      by_cases hid : (t.id == edited.id) = true
      · rw [if_pos hid] at hc
        exact absurd hc (by simp)
      · rw [if_neg hid] at hc
        simp only [Bool.and_eq_true, decide_eq_true_eq, beq_iff_eq] at hc
        exact ⟨hmem, by simpa using hid, hc.1.1.1, hc.1.1.2, hc.1.2, hc.2⟩
    · rintro ⟨hmem, hid, hdiff, hd, hm, hy⟩
      refine ⟨hmem, ?_⟩
      unfold Shot.conflictsWith
      rw [if_neg (by simpa using hid)]
      simp only [Bool.and_eq_true, decide_eq_true_eq, beq_iff_eq]
      exact ⟨⟨⟨hdiff, hd⟩, hm⟩, hy⟩
  · intro analysis tasks refId edited h1 h2 h3
    unfold Shot.handleTaskUpdate
    rw [h1]
    dsimp only
    rw [h2]
    dsimp only
    rw [show (!(analysis.changes.title.isSome || analysis.changes.scheduledDate.isSome ||
        analysis.changes.location.isSome || analysis.changes.participants.isSome)) = false
      by rw [h3]; rfl]
    simp only [Bool.false_eq_true, if_false]
    constructor
    · rcases hd : analysis.changes.scheduledDate with _ | nd
      · simp only [Shot.buildUpdateData, hd]
        simp only [apply_ite Prod.fst, ite_self]
      · simp only [Shot.buildUpdateData, hd]
        rcases hf : tasks.filter (Shot.conflictsWith edited nd) with _ | ⟨conflict, rest⟩
        · simp only [apply_ite Prod.fst, ite_self]
        · rfl
    · intro nd conflict rest hnd hfilter
      simp only [Shot.buildUpdateData, hnd]
      rw [hfilter]

/-- Closed instance of C7 at the sample conflicting update. -/
theorem conflict_detector_advisory_witness :
    (Shot.handleTaskUpdate conflictAnalysis conflictTasks).1 =
      [Event.storeUpdate (some conflictEdited.id)] ∧
    conflictOther ∈
      conflictTasks.filter (Shot.conflictsWith conflictEdited (confirmWhen + 1800000)) ∧
    conflictEdited ∉
      conflictTasks.filter (Shot.conflictsWith conflictEdited (confirmWhen + 1800000)) :=
  ⟨(conflict_detector_advisory.2 conflictAnalysis conflictTasks "t1" conflictEdited rfl
      (by decide) (by decide)).1,
   (conflict_detector_advisory.1 conflictEdited (confirmWhen + 1800000) conflictTasks
      conflictOther).mpr (by decide),
   fun hmem =>
     absurd ((conflict_detector_advisory.1 conflictEdited (confirmWhen + 1800000)
       conflictTasks conflictEdited).mp hmem).2.1 (by decide)⟩

end Assistant
